import Mathlib

/-!
Verification development for the etf-stock-analysis-platform core pipeline.

Shallow embedding of the technical-analysis code:
* `SignalSystem` — src/core/signal_system.py (the 8 indicator judges and
  `generate_signals`);
* `Indicators` — src/core/indicators.py (`judge_trend_status`,
  `calculate_forward_indicators`: RSI, KDJ);
* `Predictor` — src/core/predictor.py (`PricePredictor.predict_price`,
  `_calculate_support_resistance_debug`, `_predict_trend_probability`,
  `_predict_single_day`).

Modelling conventions:
* A pandas row (`latest`, `prev_latest`) is a function `Row := String → Option ℚ`:
  `none` models a missing column or a NaN cell (`pd.isna` is true on both).
* Machine floats are modelled by exact rationals, except where IEEE special
  values are observable: there `Flt` (`nan`/`inf`/`ninf`/`val q`) models them
  explicitly with IEEE arithmetic rules for the operations the code performs.
* Python float literals such as `0.005` are modelled by the decimal rational
  they denote; `round(x, n)` is modelled by round-half-to-even on rationals.
* `np.sqrt` and the sample standard deviation produce irrational values that no
  verified property depends on; they are taken as parameters of the predictor
  embedding, so every theorem holds for every choice of those functions.
-/

namespace EtfCore

/-- A pandas row: column name to value; `none` models both a missing column and
a NaN cell (`pd.isna` holds for both, and `Series.get`/`dict.get` returns
`None` for a missing key). -/
def Row : Type := String → Option ℚ

/-- Judge status strings of signal_system.py: "买入" (Buy), "卖出" (Sell),
"中性" (Neutral). -/
inductive Status where
  | buy
  | sell
  | neutral
deriving DecidableEq, Repr

/-- One non-null judge outcome: the `{value, status, weight}` dict returned by
an `_evaluate_*` method. The numeric `value` / `k_value` / `j_value` fields are
not carried: no verified claim reads them, only `status` and `weight` feed the
aggregation. -/
structure JudgeResult where
  status : Status
  weight : ℚ
deriving DecidableEq, Repr

namespace SignalSystem

/-- `self.signal_weights` of `SignalSystem.__init__`. -/
def signalWeights : String → ℚ
  | "RSI" => 25
  | "KDJ" => 20
  | "MACD" => 20
  | "MA" => 15
  | "BOLLINGER" => 10
  | "CCI" => 5
  | "OBV" => 3
  | "WILLIAMS" => 2
  | _ => 0

/-- `SignalSystem._evaluate_rsi`.  Reads column `RSI_12` of the latest row. -/
def evaluate_rsi (latest _prev_latest : Row) : Option JudgeResult :=
  match latest "RSI_12" with
  | none => none
  | some rsi =>
    if rsi < 30 then some ⟨.buy, signalWeights "RSI"⟩
    else if rsi < 40 then some ⟨.buy, signalWeights "RSI"⟩
    else if rsi > 70 then some ⟨.sell, signalWeights "RSI"⟩
    else if rsi > 60 then some ⟨.sell, signalWeights "RSI"⟩
    else some ⟨.neutral, signalWeights "RSI"⟩

/-- `SignalSystem._evaluate_kdj`.  The golden/death-cross test compares the
current K against the previous D; when the previous K/D are unavailable the
J-value and K-value tests run instead (the cross block falls through when
neither cross condition fires). -/
def evaluate_kdj (latest prev_latest : Row) : Option JudgeResult :=
  match latest "KDJ_K", latest "KDJ_J" with
  | some k_val, some j_val =>
    let w := signalWeights "KDJ"
    let jk : Option JudgeResult :=
      if j_val < 0 then some ⟨.buy, w⟩
      else if j_val > 100 then some ⟨.sell, w⟩
      else if k_val < 20 then some ⟨.buy, w⟩
      else if k_val > 80 then some ⟨.sell, w⟩
      else some ⟨.neutral, w⟩
    match prev_latest "KDJ_K", prev_latest "KDJ_D" with
    | some prev_k, some prev_d =>
      if k_val > prev_d ∧ prev_k ≤ prev_d then some ⟨.buy, w⟩
      else if k_val < prev_d ∧ prev_k ≥ prev_d then some ⟨.sell, w⟩
      else jk
    | _, _ => jk
  | _, _ => none

/-- `SignalSystem._evaluate_macd`. -/
def evaluate_macd (latest prev_latest : Row) : Option JudgeResult :=
  match latest "MACD_12_26_9", latest "MACDs_12_26_9" with
  | some macd, some signal =>
    let w := signalWeights "MACD"
    let za : Option JudgeResult :=
      if macd > 0 ∧ signal > 0 then some ⟨.buy, w⟩
      else if macd < 0 ∧ signal < 0 then some ⟨.sell, w⟩
      else some ⟨.neutral, w⟩
    match prev_latest "MACD_12_26_9", prev_latest "MACDs_12_26_9" with
    | some prev_macd, some prev_signal =>
      if macd > signal ∧ prev_macd ≤ prev_signal then some ⟨.buy, w⟩
      else if macd < signal ∧ prev_macd ≥ prev_signal then some ⟨.sell, w⟩
      else za
    | _, _ => za
  | _, _ => none

/-- `SignalSystem._evaluate_ma`. -/
def evaluate_ma (latest _prev_latest : Row) : Option JudgeResult :=
  match latest "close", latest "SMA_20" with
  | some close, some sma_20 =>
    let w := signalWeights "MA"
    let basic : Option JudgeResult :=
      if close > sma_20 then some ⟨.buy, w⟩
      else if close < sma_20 then some ⟨.sell, w⟩
      else some ⟨.neutral, w⟩
    match latest "SMA_5", latest "SMA_10" with
    | some sma_5, some sma_10 =>
      if close > sma_5 ∧ sma_5 > sma_10 ∧ sma_10 > sma_20 then some ⟨.buy, w⟩
      else if close < sma_5 ∧ sma_5 < sma_10 ∧ sma_10 < sma_20 then some ⟨.sell, w⟩
      else basic
    | _, _ => basic
  | _, _ => none

/-- `SignalSystem._evaluate_bollinger`.  The source only guards
`pd.isna(close) or pd.isna(lower)`; a missing upper or middle band makes the
`close > upper` / `close > middle` comparison raise `TypeError`, which the
bare `except` converts to `None` — hence the `none` branches below. -/
def evaluate_bollinger (latest : Row) : Option JudgeResult :=
  match latest "close", latest "BBL_20_2.0" with
  | some close, some lower =>
    let w := signalWeights "BOLLINGER"
    if close < lower then some ⟨.buy, w⟩
    else
      match latest "BBU_20_2.0" with
      | none => none
      | some upper =>
        if close > upper then some ⟨.sell, w⟩
        else
          match latest "BBM_20_2.0" with
          | none => none
          | some middle =>
            if close > middle then some ⟨.buy, w⟩
            else some ⟨.sell, w⟩
  | _, _ => none

/-- `SignalSystem._evaluate_cci`. -/
def evaluate_cci (latest _prev_latest : Row) : Option JudgeResult :=
  match latest "CCI_14" with
  | none => none
  | some cci =>
    let w := signalWeights "CCI"
    if cci < -100 then some ⟨.buy, w⟩
    else if cci > 100 then some ⟨.sell, w⟩
    else some ⟨.neutral, w⟩

/-- `SignalSystem._evaluate_obv`. -/
def evaluate_obv (latest prev_latest : Row) : Option JudgeResult :=
  match latest "OBV" with
  | none => none
  | some obv =>
    let w := signalWeights "OBV"
    match prev_latest "OBV" with
    | some prev_obv =>
      if obv > prev_obv then some ⟨.buy, w⟩
      else if obv < prev_obv then some ⟨.sell, w⟩
      else some ⟨.neutral, w⟩
    | none => some ⟨.neutral, w⟩

/-- `SignalSystem._evaluate_williams`.  Reads column `WR_14`. -/
def evaluate_williams (latest _prev_latest : Row) : Option JudgeResult :=
  match latest "WR_14" with
  | none => none
  | some wr =>
    let w := signalWeights "WILLIAMS"
    if wr > -20 then some ⟨.buy, w⟩
    else if wr < -80 then some ⟨.sell, w⟩
    else some ⟨.neutral, w⟩

/-- The eight judges, in the evaluation order of `generate_signals`, paired
with the key under which a non-null result is stored in
`forward_indicators`. -/
def judgeResults (latest prev_latest : Row) : List (String × Option JudgeResult) :=
  [("RSI", evaluate_rsi latest prev_latest),
   ("KDJ", evaluate_kdj latest prev_latest),
   ("MACD", evaluate_macd latest prev_latest),
   ("MA", evaluate_ma latest prev_latest),
   ("BOLLINGER", evaluate_bollinger latest),
   ("CCI", evaluate_cci latest prev_latest),
   ("OBV", evaluate_obv latest prev_latest),
   ("WILLIAMS", evaluate_williams latest prev_latest)]

/-- Accumulator of the eight `if *_result:` blocks of `generate_signals`:
running total/buy/sell weights and the `forward_indicators` insertion order. -/
structure Tally where
  total_weight : ℚ
  buy_weight : ℚ
  sell_weight : ℚ
  forward_indicators : List (String × JudgeResult)
deriving DecidableEq, Repr

/-- One `if *_result:` block of `generate_signals`: a null judge leaves the
tally unchanged; a non-null judge is stored and its weight added to the total
and, according to its status, to the buy or sell side. -/
def step (t : Tally) (p : String × Option JudgeResult) : Tally :=
  match p.2 with
  | none => t
  | some r =>
    { total_weight := t.total_weight + r.weight
      buy_weight := t.buy_weight + (if r.status = .buy then r.weight else 0)
      sell_weight := t.sell_weight + (if r.status = .sell then r.weight else 0)
      forward_indicators := t.forward_indicators ++ [(p.1, r)] }

/-- The tally after all eight judge blocks of `generate_signals` have run. -/
def tally (latest prev_latest : Row) : Tally :=
  (judgeResults latest prev_latest).foldl step
    { total_weight := 0, buy_weight := 0, sell_weight := 0, forward_indicators := [] }

/-- The `signal_score` computation of `generate_signals`:
`net_score = ((buy_weight - sell_weight) / total_weight) * 50 + 50` when
`total_weight > 0`, else the neutral default 50. -/
def signal_score_of (t : Tally) : ℚ :=
  if 0 < t.total_weight then (t.buy_weight - t.sell_weight) / t.total_weight * 50 + 50
  else 50

/-- The confidence computation of `generate_signals`: count the stored judges
with status Buy or Sell; confidence is `max(buy_count, sell_count) /
signal_count * 100`, or 50 when no judge voted Buy or Sell. -/
def confidence_of (fwd : List (String × JudgeResult)) : ℚ :=
  let signal_count := (fwd.filter fun p => p.2.status = Status.buy ∨ p.2.status = Status.sell).length
  let buy_count := (fwd.filter fun p => p.2.status = Status.buy).length
  let sell_count := (fwd.filter fun p => p.2.status = Status.sell).length
  if 0 < signal_count then ((max buy_count sell_count : ℕ) : ℚ) / (signal_count : ℚ) * 100
  else 50

/-- The `signal_type` threshold chain of `generate_signals`. -/
def signal_type_of (score : ℚ) : String :=
  if score ≥ 85 then "Strong Buy"
  else if score ≥ 65 then "Buy"
  else if score ≥ 45 then "Hold"
  else if score ≥ 25 then "Sell"
  else "Strong Sell"

/-- The `signal_strength` assigned together with `signal_type` in the same
threshold chain (before the confidence-based adjustment). -/
def base_strength_of (score : ℚ) : String :=
  if score ≥ 85 then "Strong"
  else if score ≥ 65 then "Weak"
  else if score ≥ 45 then "Weak"
  else if score ≥ 25 then "Weak"
  else "Strong"

/-- The final confidence-based adjustment of `signal_strength` at the end of
`generate_signals`: `confidence >= 70` forces "Strong", `confidence >= 40`
forces "Weak", otherwise the type-based strength stands. -/
def strength_of (score confidence : ℚ) : String :=
  if confidence ≥ 70 then "Strong"
  else if confidence ≥ 40 then "Weak"
  else base_strength_of score

/-- The result dict of `generate_signals`.  `signal_reasons` (a list of
narrative strings never read by any verified property) is not carried. -/
structure SignalData where
  signal_type : String
  signal_score : ℚ
  confidence : ℚ
  signal_strength : String
  forward_indicators : List (String × JudgeResult)
deriving DecidableEq, Repr

/-- `SignalSystem.generate_signals` (src/core/signal_system.py, the non-error
path; the `except` fallback is unreachable in this embedding since every judge
models its own exception handling). -/
def generate_signals (latest prev_latest : Row) : SignalData :=
  let t := tally latest prev_latest
  let score := signal_score_of t
  let conf := confidence_of t.forward_indicators
  { signal_type := signal_type_of score
    signal_score := score
    confidence := conf
    signal_strength := strength_of score conf
    forward_indicators := t.forward_indicators }

/-- Sum of the weights of all judges that returned non-null (the spec's
`total_weight_of_available_indicators`). -/
def spec_total_weight (l : List (String × Option JudgeResult)) : ℚ :=
  ((l.filterMap Prod.snd).map JudgeResult.weight).sum

/-- Sum of the weights of the non-null judges whose status is Buy. -/
def spec_buy_weight (l : List (String × Option JudgeResult)) : ℚ :=
  (((l.filterMap Prod.snd).filter fun r => r.status = Status.buy).map JudgeResult.weight).sum

/-- Sum of the weights of the non-null judges whose status is Sell. -/
def spec_sell_weight (l : List (String × Option JudgeResult)) : ℚ :=
  (((l.filterMap Prod.snd).filter fun r => r.status = Status.sell).map JudgeResult.weight).sum

theorem foldl_step_total (l : List (String × Option JudgeResult)) (t : Tally) :
    (l.foldl step t).total_weight = t.total_weight + spec_total_weight l := by
  induction l generalizing t with
  | nil => simp [spec_total_weight]
  | cons p l ih =>
    cases hp : p.2 with
    | none =>
      simp [List.foldl_cons, step, hp, ih, spec_total_weight, List.filterMap_cons]
    | some r =>
      simp only [List.foldl_cons, step, hp, ih, spec_total_weight, List.filterMap_cons,
        List.map_cons, List.sum_cons]
      ring

theorem foldl_step_buy (l : List (String × Option JudgeResult)) (t : Tally) :
    (l.foldl step t).buy_weight = t.buy_weight + spec_buy_weight l := by
  induction l generalizing t with
  | nil => simp [spec_buy_weight]
  | cons p l ih =>
    cases hp : p.2 with
    | none =>
      simp [List.foldl_cons, step, hp, ih, spec_buy_weight, List.filterMap_cons]
    | some r =>
      simp only [List.foldl_cons, step, hp, ih, spec_buy_weight, List.filterMap_cons,
        List.filter_cons]
      by_cases hb : r.status = Status.buy <;> (simp [hb]; try ring)

theorem foldl_step_sell (l : List (String × Option JudgeResult)) (t : Tally) :
    (l.foldl step t).sell_weight = t.sell_weight + spec_sell_weight l := by
  induction l generalizing t with
  | nil => simp [spec_sell_weight]
  | cons p l ih =>
    cases hp : p.2 with
    | none =>
      simp [List.foldl_cons, step, hp, ih, spec_sell_weight, List.filterMap_cons]
    | some r =>
      simp only [List.foldl_cons, step, hp, ih, spec_sell_weight, List.filterMap_cons,
        List.filter_cons]
      by_cases hb : r.status = Status.sell <;> (simp [hb]; try ring)

theorem foldl_step_fwd (l : List (String × Option JudgeResult)) (t : Tally) :
    (l.foldl step t).forward_indicators
      = t.forward_indicators ++ l.filterMap (fun p => p.2.map fun r => (p.1, r)) := by
  induction l generalizing t with
  | nil => simp
  | cons p l ih =>
    cases hp : p.2 with
    | none => simp [List.foldl_cons, step, hp, ih, List.filterMap_cons]
    | some r => simp [List.foldl_cons, step, hp, ih, List.filterMap_cons]

theorem evaluate_rsi_weight {latest prev_latest : Row} {r : JudgeResult}
    (h : evaluate_rsi latest prev_latest = some r) : r.weight = 25 := by
  simp only [evaluate_rsi] at h
  split at h
  · exact absurd h (by simp)
  · split_ifs at h <;> (injection h with h; subst h; simp [signalWeights])

theorem evaluate_kdj_weight {latest prev_latest : Row} {r : JudgeResult}
    (h : evaluate_kdj latest prev_latest = some r) : r.weight = 20 := by
  simp only [evaluate_kdj] at h
  split at h
  · split at h <;> split_ifs at h <;> (injection h with h; subst h; simp [signalWeights])
  · exact absurd h (by simp)

theorem evaluate_macd_weight {latest prev_latest : Row} {r : JudgeResult}
    (h : evaluate_macd latest prev_latest = some r) : r.weight = 20 := by
  simp only [evaluate_macd] at h
  split at h
  · split at h <;> split_ifs at h <;> (injection h with h; subst h; simp [signalWeights])
  · exact absurd h (by simp)

theorem evaluate_ma_weight {latest prev_latest : Row} {r : JudgeResult}
    (h : evaluate_ma latest prev_latest = some r) : r.weight = 15 := by
  simp only [evaluate_ma] at h
  split at h
  · split at h <;> split_ifs at h <;> (injection h with h; subst h; simp [signalWeights])
  · exact absurd h (by simp)

theorem evaluate_bollinger_weight {latest : Row} {r : JudgeResult}
    (h : evaluate_bollinger latest = some r) : r.weight = 10 := by
  simp only [evaluate_bollinger] at h
  split at h
  · split_ifs at h
    · injection h with h; subst h; simp [signalWeights]
    · split at h
      · exact absurd h (by simp)
      · split_ifs at h
        · injection h with h; subst h; simp [signalWeights]
        · split at h
          · exact absurd h (by simp)
          · split_ifs at h <;> (injection h with h; subst h; simp [signalWeights])
  · exact absurd h (by simp)

theorem evaluate_cci_weight {latest prev_latest : Row} {r : JudgeResult}
    (h : evaluate_cci latest prev_latest = some r) : r.weight = 5 := by
  simp only [evaluate_cci] at h
  split at h
  · exact absurd h (by simp)
  · split_ifs at h <;> (injection h with h; subst h; simp [signalWeights])

theorem evaluate_obv_weight {latest prev_latest : Row} {r : JudgeResult}
    (h : evaluate_obv latest prev_latest = some r) : r.weight = 3 := by
  simp only [evaluate_obv] at h
  split at h
  · exact absurd h (by simp)
  · split at h
    · split_ifs at h <;> (injection h with h; subst h; simp [signalWeights])
    · injection h with h; subst h; simp [signalWeights]

theorem evaluate_williams_weight {latest prev_latest : Row} {r : JudgeResult}
    (h : evaluate_williams latest prev_latest = some r) : r.weight = 2 := by
  simp only [evaluate_williams] at h
  split at h
  · exact absurd h (by simp)
  · split_ifs at h <;> (injection h with h; subst h; simp [signalWeights])

/-- Every non-null judge result carries a positive weight (25, 20, 20, 15, 10,
5, 3 or 2 depending on the judge). -/
theorem judge_weight_pos {latest prev_latest : Row} {p : String × Option JudgeResult}
    (hp : p ∈ judgeResults latest prev_latest) {r : JudgeResult} (h : p.2 = some r) :
    0 < r.weight := by
  simp only [judgeResults, List.mem_cons, List.not_mem_nil, or_false] at hp
  rcases hp with rfl | rfl | rfl | rfl | rfl | rfl | rfl | rfl
  · have h' : evaluate_rsi latest prev_latest = some r := h
    rw [evaluate_rsi_weight h']; norm_num
  · have h' : evaluate_kdj latest prev_latest = some r := h
    rw [evaluate_kdj_weight h']; norm_num
  · have h' : evaluate_macd latest prev_latest = some r := h
    rw [evaluate_macd_weight h']; norm_num
  · have h' : evaluate_ma latest prev_latest = some r := h
    rw [evaluate_ma_weight h']; norm_num
  · have h' : evaluate_bollinger latest = some r := h
    rw [evaluate_bollinger_weight h']; norm_num
  · have h' : evaluate_cci latest prev_latest = some r := h
    rw [evaluate_cci_weight h']; norm_num
  · have h' : evaluate_obv latest prev_latest = some r := h
    rw [evaluate_obv_weight h']; norm_num
  · have h' : evaluate_williams latest prev_latest = some r := h
    rw [evaluate_williams_weight h']; norm_num

theorem spec_total_weight_nonneg (l : List (String × Option JudgeResult))
    (hpos : ∀ p ∈ l, ∀ r, p.2 = some r → 0 < r.weight) : 0 ≤ spec_total_weight l := by
  induction l with
  | nil => simp [spec_total_weight]
  | cons p l ih =>
    have ih' := ih fun q hq r hr => hpos q (List.mem_cons_of_mem p hq) r hr
    cases hp : p.2 with
    | none => simpa [spec_total_weight, List.filterMap_cons, hp] using ih'
    | some r =>
      have hw := hpos p (List.mem_cons_self p l) r hp
      simp only [spec_total_weight, List.filterMap_cons, hp, List.map_cons, List.sum_cons]
      have : (0 : ℚ) ≤ ((l.filterMap Prod.snd).map JudgeResult.weight).sum := ih'
      linarith

theorem spec_total_weight_pos (l : List (String × Option JudgeResult))
    (hpos : ∀ p ∈ l, ∀ r, p.2 = some r → 0 < r.weight)
    (h : ∃ p ∈ l, p.2.isSome) : 0 < spec_total_weight l := by
  induction l with
  | nil => simp at h
  | cons p l ih =>
    have hpos' : ∀ q ∈ l, ∀ r, q.2 = some r → 0 < r.weight :=
      fun q hq r hr => hpos q (List.mem_cons_of_mem p hq) r hr
    cases hp : p.2 with
    | none =>
      have : ∃ q ∈ l, q.2.isSome := by
        rcases h with ⟨q, hq, hqs⟩
        rcases List.mem_cons.mp hq with rfl | hq'
        · rw [hp] at hqs; simp at hqs
        · exact ⟨q, hq', hqs⟩
      simpa [spec_total_weight, List.filterMap_cons, hp] using ih hpos' this
    | some r =>
      have hw := hpos p (List.mem_cons_self p l) r hp
      have hnn := spec_total_weight_nonneg l hpos'
      simp only [spec_total_weight, List.filterMap_cons, hp, List.map_cons, List.sum_cons]
      have : (0 : ℚ) ≤ spec_total_weight l := hnn
      simp only [spec_total_weight] at this
      linarith

/-- If every judge returned null, no weight accumulates. -/
theorem spec_total_weight_eq_zero (l : List (String × Option JudgeResult))
    (h : ∀ p ∈ l, p.2 = none) : spec_total_weight l = 0 := by
  have : l.filterMap Prod.snd = [] := List.filterMap_eq_nil_iff.mpr fun p hp => h p hp
  simp [spec_total_weight, this]

/-- **C1.** For every call to `SignalSystem.generate_signals` in which at least
one indicator judge returns a non-null result, the returned `signal_score`
equals `50 + 50 × (buy_weight − sell_weight) / total_weight`, where buy_weight
(resp. sell_weight) sums the fixed weights of the judges whose status is Buy
(resp. Sell) and total_weight sums the weights of all judges that returned
non-null (Neutral judges counted in the total but on neither side); when every
judge returns null, `signal_score` is 50. -/
theorem generate_signals_score_formula (latest prev_latest : Row) :
    ((∃ p ∈ judgeResults latest prev_latest, p.2.isSome) →
      (generate_signals latest prev_latest).signal_score =
        50 + 50 * (spec_buy_weight (judgeResults latest prev_latest)
            - spec_sell_weight (judgeResults latest prev_latest))
          / spec_total_weight (judgeResults latest prev_latest)) ∧
    ((∀ p ∈ judgeResults latest prev_latest, p.2 = none) →
      (generate_signals latest prev_latest).signal_score = 50) := by
  have hscore : (generate_signals latest prev_latest).signal_score
      = signal_score_of (tally latest prev_latest) := rfl
  have htot : (tally latest prev_latest).total_weight
      = spec_total_weight (judgeResults latest prev_latest) := by
    simp [tally, foldl_step_total]
  have hbuy : (tally latest prev_latest).buy_weight
      = spec_buy_weight (judgeResults latest prev_latest) := by
    simp [tally, foldl_step_buy]
  have hsell : (tally latest prev_latest).sell_weight
      = spec_sell_weight (judgeResults latest prev_latest) := by
    simp [tally, foldl_step_sell]
  constructor
  · intro hex
    have hpos : 0 < spec_total_weight (judgeResults latest prev_latest) :=
      spec_total_weight_pos _ (fun p hp r hr => judge_weight_pos hp hr) hex
    rw [hscore, signal_score_of, htot, hbuy, hsell, if_pos hpos]
    field_simp
    ring
  · intro hall
    have hz := spec_total_weight_eq_zero _ hall
    rw [hscore, signal_score_of, htot, hz]
    norm_num

/-- Concrete row for the C1 witness: only the CCI judge is available. -/
def c1_latest : Row := fun s => if s = "CCI_14" then some 0 else none

/-- Concrete previous row for the C1 witness: empty. -/
def c1_prev : Row := fun _ => none

/-- Witness for C1: on a row where only CCI reports (Neutral, weight 5), the
hypothesis holds and the formula gives 50 + 50·(0−0)/5 = 50. -/
theorem generate_signals_score_formula_witness :
    (∃ p ∈ judgeResults c1_latest c1_prev, p.2.isSome) ∧
    (generate_signals c1_latest c1_prev).signal_score =
      50 + 50 * (spec_buy_weight (judgeResults c1_latest c1_prev)
          - spec_sell_weight (judgeResults c1_latest c1_prev))
        / spec_total_weight (judgeResults c1_latest c1_prev) :=
  ⟨by decide, (generate_signals_score_formula c1_latest c1_prev).1 (by decide)⟩

theorem gs_score (latest prev_latest : Row) :
    (generate_signals latest prev_latest).signal_score
      = signal_score_of (tally latest prev_latest) := rfl

theorem gs_conf (latest prev_latest : Row) :
    (generate_signals latest prev_latest).confidence
      = confidence_of (tally latest prev_latest).forward_indicators := rfl

theorem gs_type (latest prev_latest : Row) :
    (generate_signals latest prev_latest).signal_type
      = signal_type_of (signal_score_of (tally latest prev_latest)) := rfl

theorem gs_strength (latest prev_latest : Row) :
    (generate_signals latest prev_latest).signal_strength
      = strength_of (signal_score_of (tally latest prev_latest))
          (confidence_of (tally latest prev_latest).forward_indicators) := rfl

theorem gs_fwd (latest prev_latest : Row) :
    (generate_signals latest prev_latest).forward_indicators
      = (tally latest prev_latest).forward_indicators := rfl

theorem tally_total (latest prev_latest : Row) :
    (tally latest prev_latest).total_weight
      = spec_total_weight (judgeResults latest prev_latest) := by
  simp [tally, foldl_step_total]

theorem tally_buy (latest prev_latest : Row) :
    (tally latest prev_latest).buy_weight
      = spec_buy_weight (judgeResults latest prev_latest) := by
  simp [tally, foldl_step_buy]

theorem tally_sell (latest prev_latest : Row) :
    (tally latest prev_latest).sell_weight
      = spec_sell_weight (judgeResults latest prev_latest) := by
  simp [tally, foldl_step_sell]

theorem tally_fwd (latest prev_latest : Row) :
    (tally latest prev_latest).forward_indicators
      = (judgeResults latest prev_latest).filterMap (fun q => q.2.map fun r => (q.1, r)) := by
  simp [tally, foldl_step_fwd]

/-- When every non-null judge reports Buy, the buy side carries the whole
total weight and the sell side carries nothing. -/
theorem spec_weights_all_buy (l : List (String × Option JudgeResult))
    (hb : ∀ p ∈ l, ∀ r, p.2 = some r → r.status = Status.buy) :
    spec_buy_weight l = spec_total_weight l ∧ spec_sell_weight l = 0 := by
  have hall : ∀ r ∈ l.filterMap Prod.snd, r.status = Status.buy := by
    intro r hr
    rcases List.mem_filterMap.mp hr with ⟨p, hp, hpr⟩
    exact hb p hp r hpr
  refine ⟨?_, ?_⟩
  · unfold spec_buy_weight spec_total_weight
    rw [List.filter_eq_self.mpr fun r hr => by simp [hall r hr]]
  · unfold spec_sell_weight
    rw [List.filter_eq_nil_iff.mpr fun r hr => by simp [hall r hr]]
    simp

/-- When every non-null judge reports Sell, the sell side carries the whole
total weight and the buy side carries nothing. -/
theorem spec_weights_all_sell (l : List (String × Option JudgeResult))
    (hs : ∀ p ∈ l, ∀ r, p.2 = some r → r.status = Status.sell) :
    spec_sell_weight l = spec_total_weight l ∧ spec_buy_weight l = 0 := by
  have hall : ∀ r ∈ l.filterMap Prod.snd, r.status = Status.sell := by
    intro r hr
    rcases List.mem_filterMap.mp hr with ⟨p, hp, hpr⟩
    exact hs p hp r hpr
  refine ⟨?_, ?_⟩
  · unfold spec_sell_weight spec_total_weight
    rw [List.filter_eq_self.mpr fun r hr => by simp [hall r hr]]
  · unfold spec_buy_weight
    rw [List.filter_eq_nil_iff.mpr fun r hr => by simp [hall r hr]]
    simp

/-- When every non-null judge reports Neutral, both sides carry nothing. -/
theorem spec_weights_all_neutral (l : List (String × Option JudgeResult))
    (hn : ∀ p ∈ l, ∀ r, p.2 = some r → r.status = Status.neutral) :
    spec_buy_weight l = 0 ∧ spec_sell_weight l = 0 := by
  have hall : ∀ r ∈ l.filterMap Prod.snd, r.status = Status.neutral := by
    intro r hr
    rcases List.mem_filterMap.mp hr with ⟨p, hp, hpr⟩
    exact hn p hp r hpr
  constructor
  · unfold spec_buy_weight
    rw [List.filter_eq_nil_iff.mpr fun r hr => by simp [hall r hr]]
    simp
  · unfold spec_sell_weight
    rw [List.filter_eq_nil_iff.mpr fun r hr => by simp [hall r hr]]
    simp

theorem confidence_of_all_buy (fwd : List (String × JudgeResult)) (hne : fwd ≠ [])
    (hb : ∀ q ∈ fwd, q.2.status = Status.buy) : confidence_of fwd = 100 := by
  have hfull : (fwd.filter fun q =>
      q.2.status = Status.buy ∨ q.2.status = Status.sell) = fwd :=
    List.filter_eq_self.mpr fun q hq => by simp [hb q hq]
  have hbuy : (fwd.filter fun q => q.2.status = Status.buy) = fwd :=
    List.filter_eq_self.mpr fun q hq => by simp [hb q hq]
  have hsell : (fwd.filter fun q => q.2.status = Status.sell) = [] :=
    List.filter_eq_nil_iff.mpr fun q hq => by simp [hb q hq]
  have hlen : 0 < fwd.length := List.length_pos.mpr hne
  have hlq : ((fwd.length : ℕ) : ℚ) ≠ 0 := Nat.cast_ne_zero.mpr hlen.ne'
  simp only [confidence_of]
  rw [hfull, hbuy, hsell]
  simp only [List.length_nil, Nat.max_zero, if_pos hlen]
  rw [div_self hlq]
  norm_num

theorem confidence_of_all_sell (fwd : List (String × JudgeResult)) (hne : fwd ≠ [])
    (hs : ∀ q ∈ fwd, q.2.status = Status.sell) : confidence_of fwd = 100 := by
  have hfull : (fwd.filter fun q =>
      q.2.status = Status.buy ∨ q.2.status = Status.sell) = fwd :=
    List.filter_eq_self.mpr fun q hq => by simp [hs q hq]
  have hbuy : (fwd.filter fun q => q.2.status = Status.buy) = [] :=
    List.filter_eq_nil_iff.mpr fun q hq => by simp [hs q hq]
  have hsell : (fwd.filter fun q => q.2.status = Status.sell) = fwd :=
    List.filter_eq_self.mpr fun q hq => by simp [hs q hq]
  have hlen : 0 < fwd.length := List.length_pos.mpr hne
  have hlq : ((fwd.length : ℕ) : ℚ) ≠ 0 := Nat.cast_ne_zero.mpr hlen.ne'
  simp only [confidence_of]
  rw [hfull, hbuy, hsell]
  simp only [List.length_nil, Nat.zero_max, if_pos hlen]
  rw [div_self hlq]
  norm_num

theorem confidence_of_all_neutral (fwd : List (String × JudgeResult))
    (hn : ∀ q ∈ fwd, q.2.status = Status.neutral) : confidence_of fwd = 50 := by
  have hempty : (fwd.filter fun q =>
      q.2.status = Status.buy ∨ q.2.status = Status.sell) = [] :=
    List.filter_eq_nil_iff.mpr fun q hq => by simp [hn q hq]
  simp only [confidence_of]
  rw [hempty]
  simp

/-- **C3.** If all 8 indicator judges report Buy, `generate_signals` returns
signal_score 100, signal_type "Strong Buy" and confidence 100; if all 8 report
Sell it returns 0, "Strong Sell" and 100; if every judge that returned non-null
reports Neutral it returns 50, "Hold" and 50.  (The Bollinger judge never
returns a Neutral result, so the Neutral clause quantifies over the judges that
actually reported.) -/
theorem generate_signals_consensus (latest prev_latest : Row) :
    ((∀ p ∈ judgeResults latest prev_latest, ∃ r, p.2 = some r ∧ r.status = Status.buy) →
      (generate_signals latest prev_latest).signal_score = 100 ∧
      (generate_signals latest prev_latest).signal_type = "Strong Buy" ∧
      (generate_signals latest prev_latest).confidence = 100) ∧
    ((∀ p ∈ judgeResults latest prev_latest, ∃ r, p.2 = some r ∧ r.status = Status.sell) →
      (generate_signals latest prev_latest).signal_score = 0 ∧
      (generate_signals latest prev_latest).signal_type = "Strong Sell" ∧
      (generate_signals latest prev_latest).confidence = 100) ∧
    ((∀ p ∈ judgeResults latest prev_latest, ∀ r, p.2 = some r → r.status = Status.neutral) →
      (generate_signals latest prev_latest).signal_score = 50 ∧
      (generate_signals latest prev_latest).signal_type = "Hold" ∧
      (generate_signals latest prev_latest).confidence = 50) := by
  have hrsi_mem : ("RSI", evaluate_rsi latest prev_latest) ∈ judgeResults latest prev_latest := by
    simp [judgeResults]
  refine ⟨?_, ?_, ?_⟩
  · intro hb
    have hb' : ∀ p ∈ judgeResults latest prev_latest, ∀ r, p.2 = some r →
        r.status = Status.buy := by
      intro p hp r hr
      rcases hb p hp with ⟨r', hr', hst⟩
      rw [hr] at hr'
      cases hr'
      exact hst
    have hex : ∃ p ∈ judgeResults latest prev_latest, p.2.isSome := by
      rcases hb _ hrsi_mem with ⟨r, hr, _⟩
      replace hr : evaluate_rsi latest prev_latest = some r := hr
      exact ⟨_, hrsi_mem, by simp [hr]⟩
    have hT := spec_total_weight_pos _ (fun p hp r hr => judge_weight_pos hp hr) hex
    obtain ⟨hbw, hsw⟩ := spec_weights_all_buy _ hb'
    have hscore : (generate_signals latest prev_latest).signal_score = 100 := by
      rw [gs_score, signal_score_of, tally_total, tally_buy, tally_sell, if_pos hT,
        hbw, hsw, sub_zero, div_self hT.ne']
      norm_num
    refine ⟨hscore, ?_, ?_⟩
    · rw [gs_type, ← gs_score, hscore, signal_type_of]
      norm_num
    · rw [gs_conf]
      apply confidence_of_all_buy
      · rcases hb _ hrsi_mem with ⟨r, hr, _⟩
        replace hr : evaluate_rsi latest prev_latest = some r := hr
        have : ("RSI", r) ∈ (tally latest prev_latest).forward_indicators := by
          rw [tally_fwd]
          exact List.mem_filterMap.mpr ⟨_, hrsi_mem, by simp [hr]⟩
        exact List.ne_nil_of_mem this
      · intro q hq
        rw [tally_fwd] at hq
        rcases List.mem_filterMap.mp hq with ⟨p, hp, hpq⟩
        rcases Option.map_eq_some'.mp hpq with ⟨r, hr, hq2⟩
        have := hb' p hp r hr
        rw [← hq2]
        exact this
  · intro hs
    have hs' : ∀ p ∈ judgeResults latest prev_latest, ∀ r, p.2 = some r →
        r.status = Status.sell := by
      intro p hp r hr
      rcases hs p hp with ⟨r', hr', hst⟩
      rw [hr] at hr'
      cases hr'
      exact hst
    have hex : ∃ p ∈ judgeResults latest prev_latest, p.2.isSome := by
      rcases hs _ hrsi_mem with ⟨r, hr, _⟩
      replace hr : evaluate_rsi latest prev_latest = some r := hr
      exact ⟨_, hrsi_mem, by simp [hr]⟩
    have hT := spec_total_weight_pos _ (fun p hp r hr => judge_weight_pos hp hr) hex
    obtain ⟨hsw, hbw⟩ := spec_weights_all_sell _ hs'
    have hscore : (generate_signals latest prev_latest).signal_score = 0 := by
      rw [gs_score, signal_score_of, tally_total, tally_buy, tally_sell, if_pos hT,
        hbw, hsw, zero_sub, neg_div, div_self hT.ne']
      norm_num
    refine ⟨hscore, ?_, ?_⟩
    · rw [gs_type, ← gs_score, hscore, signal_type_of]
      norm_num
    · rw [gs_conf]
      apply confidence_of_all_sell
      · rcases hs _ hrsi_mem with ⟨r, hr, _⟩
        replace hr : evaluate_rsi latest prev_latest = some r := hr
        have : ("RSI", r) ∈ (tally latest prev_latest).forward_indicators := by
          rw [tally_fwd]
          exact List.mem_filterMap.mpr ⟨_, hrsi_mem, by simp [hr]⟩
        exact List.ne_nil_of_mem this
      · intro q hq
        rw [tally_fwd] at hq
        rcases List.mem_filterMap.mp hq with ⟨p, hp, hpq⟩
        rcases Option.map_eq_some'.mp hpq with ⟨r, hr, hq2⟩
        have := hs' p hp r hr
        rw [← hq2]
        exact this
  · intro hn
    obtain ⟨hbw, hsw⟩ := spec_weights_all_neutral _ hn
    have hscore : (generate_signals latest prev_latest).signal_score = 50 := by
      rw [gs_score, signal_score_of, tally_total, tally_buy, tally_sell, hbw, hsw]
      split <;> simp
    refine ⟨hscore, ?_, ?_⟩
    · rw [gs_type, ← gs_score, hscore, signal_type_of]
      norm_num
    · rw [gs_conf]
      apply confidence_of_all_neutral
      intro q hq
      rw [tally_fwd] at hq
      rcases List.mem_filterMap.mp hq with ⟨p, hp, hpq⟩
      rcases Option.map_eq_some'.mp hpq with ⟨r, hr, hq2⟩
      have := hn p hp r hr
      rw [← hq2]
      exact this

/-- Latest row on which all 8 judges report Buy (witness input; the WR_14
column, never produced by the daily pipeline, is supplied directly so that
the Williams judge also fires). -/
def c3_buy_latest : Row := fun s =>
  if s = "close" then some 100
  else if s = "RSI_12" then some 25
  else if s = "KDJ_K" then some 10
  else if s = "KDJ_J" then some 50
  else if s = "MACD_12_26_9" then some 2
  else if s = "MACDs_12_26_9" then some 1
  else if s = "SMA_20" then some 90
  else if s = "BBL_20_2.0" then some 50
  else if s = "BBU_20_2.0" then some 150
  else if s = "BBM_20_2.0" then some 99
  else if s = "CCI_14" then some (-150)
  else if s = "OBV" then some 10
  else if s = "WR_14" then some (-10)
  else none

/-- Previous row for the all-Buy witness: only a lower OBV is present. -/
def c3_buy_prev : Row := fun s => if s = "OBV" then some 5 else none

/-- Latest row on which all 8 judges report Sell. -/
def c3_sell_latest : Row := fun s =>
  if s = "close" then some 100
  else if s = "RSI_12" then some 75
  else if s = "KDJ_K" then some 90
  else if s = "KDJ_J" then some 50
  else if s = "MACD_12_26_9" then some (-2)
  else if s = "MACDs_12_26_9" then some (-1)
  else if s = "SMA_20" then some 150
  else if s = "BBL_20_2.0" then some 10
  else if s = "BBU_20_2.0" then some 50
  else if s = "BBM_20_2.0" then some 20
  else if s = "CCI_14" then some 150
  else if s = "OBV" then some 5
  else if s = "WR_14" then some (-90)
  else none

/-- Previous row for the all-Sell witness: only a higher OBV is present. -/
def c3_sell_prev : Row := fun s => if s = "OBV" then some 10 else none

/-- Latest row on which every judge that reports is Neutral (the Bollinger
judge is null because the BBL column is missing; it can never report
Neutral). -/
def c3_neutral_latest : Row := fun s =>
  if s = "close" then some 100
  else if s = "RSI_12" then some 50
  else if s = "KDJ_K" then some 50
  else if s = "KDJ_J" then some 50
  else if s = "MACD_12_26_9" then some 2
  else if s = "MACDs_12_26_9" then some (-1)
  else if s = "SMA_20" then some 100
  else if s = "CCI_14" then some 0
  else if s = "OBV" then some 10
  else if s = "WR_14" then some (-50)
  else none

/-- Previous row for the all-Neutral witness: empty. -/
def c3_neutral_prev : Row := fun _ => none

/-- Witness for C3: all three consensus hypotheses are discharged at explicit
concrete rows. -/
theorem generate_signals_consensus_witness :
    ((∀ p ∈ judgeResults c3_buy_latest c3_buy_prev, ∃ r, p.2 = some r ∧
        r.status = Status.buy) ∧
      (generate_signals c3_buy_latest c3_buy_prev).signal_score = 100 ∧
      (generate_signals c3_buy_latest c3_buy_prev).signal_type = "Strong Buy" ∧
      (generate_signals c3_buy_latest c3_buy_prev).confidence = 100) ∧
    ((∀ p ∈ judgeResults c3_sell_latest c3_sell_prev, ∃ r, p.2 = some r ∧
        r.status = Status.sell) ∧
      (generate_signals c3_sell_latest c3_sell_prev).signal_score = 0 ∧
      (generate_signals c3_sell_latest c3_sell_prev).signal_type = "Strong Sell" ∧
      (generate_signals c3_sell_latest c3_sell_prev).confidence = 100) ∧
    ((∀ p ∈ judgeResults c3_neutral_latest c3_neutral_prev, ∀ r, p.2 = some r →
        r.status = Status.neutral) ∧
      (generate_signals c3_neutral_latest c3_neutral_prev).signal_score = 50 ∧
      (generate_signals c3_neutral_latest c3_neutral_prev).signal_type = "Hold" ∧
      (generate_signals c3_neutral_latest c3_neutral_prev).confidence = 50) :=
  ⟨⟨by decide, (generate_signals_consensus c3_buy_latest c3_buy_prev).1 (by decide)⟩,
   ⟨by decide, (generate_signals_consensus c3_sell_latest c3_sell_prev).2.1 (by decide)⟩,
   ⟨by decide, (generate_signals_consensus c3_neutral_latest c3_neutral_prev).2.2 (by decide)⟩⟩

theorem signal_count_eq (fwd : List (String × JudgeResult)) :
    (fwd.filter fun q => q.2.status = Status.buy ∨ q.2.status = Status.sell).length
      = (fwd.filter fun q => q.2.status = Status.buy).length
        + (fwd.filter fun q => q.2.status = Status.sell).length := by
  induction fwd with
  | nil => simp
  | cons q l ih =>
    cases hst : q.2.status
    all_goals simp [List.filter_cons, hst] at ih ⊢
    all_goals omega

/-- The confidence of `generate_signals` is always at least 50: when some judge
voted Buy or Sell the dominant side count is at least half the voting count,
and when none did the neutral default is 50. -/
theorem confidence_of_ge_50 (fwd : List (String × JudgeResult)) :
    50 ≤ confidence_of fwd := by
  simp only [confidence_of]
  split
  case isTrue h =>
    have hn := signal_count_eq fwd
    set b := (fwd.filter fun q => q.2.status = Status.buy).length with hb
    set s := (fwd.filter fun q => q.2.status = Status.sell).length with hs
    set n := (fwd.filter fun q =>
      q.2.status = Status.buy ∨ q.2.status = Status.sell).length with hnn
    have hmax : n ≤ 2 * max b s := by
      have h1 := Nat.le_max_left b s
      have h2 := Nat.le_max_right b s
      omega
    have hnpos : (0 : ℚ) < (n : ℚ) := by exact_mod_cast h
    rw [div_mul_eq_mul_div, le_div_iff₀ hnpos]
    have : ((n : ℚ)) ≤ 2 * (max b s : ℕ) := by exact_mod_cast hmax
    push_cast at this ⊢
    linarith
  case isFalse h => exact le_refl 50

/-- The final strength value as a function of score and confidence: given that
confidence is at least 50, the `confidence ≥ 40` branch always swallows the
type-based assignment, so the result is "Strong" exactly when
confidence ≥ 70. -/
theorem strength_of_iff (score conf : ℚ) (hconf : 50 ≤ conf) :
    strength_of score conf = "Strong" ↔ 70 ≤ conf := by
  unfold strength_of
  split_ifs with h1 h2
  · exact iff_of_true rfl h1
  · exact iff_of_false (by decide) h1
  · exact absurd (by linarith : (40 : ℚ) ≤ conf) h2

/-- **C8 (amended).** `signal_strength` is "Strong" exactly when confidence is
at least 70.  The claim's exception for Strong Buy / Strong Sell types never
applies: the type-based strength assignment is always overridden by the
confidence adjustment, because the confidence is provably at least 50 (hence
always hits the `≥ 70` or `≥ 40` branch). -/
theorem generate_signals_strength_iff (latest prev_latest : Row) :
    (generate_signals latest prev_latest).signal_strength = "Strong" ↔
      70 ≤ (generate_signals latest prev_latest).confidence := by
  rw [gs_strength, gs_conf]
  exact strength_of_iff _ _ (confidence_of_ge_50 _)

/-- Latest row for the C8 counterexample: five judges report Buy (weight 90)
and three report Sell (weight 10), giving score 90 (Strong Buy) but
confidence 62.5. -/
def c8_latest : Row := fun s =>
  if s = "close" then some 100
  else if s = "RSI_12" then some 25
  else if s = "KDJ_K" then some 10
  else if s = "KDJ_J" then some 50
  else if s = "MACD_12_26_9" then some 2
  else if s = "MACDs_12_26_9" then some 1
  else if s = "SMA_20" then some 90
  else if s = "BBL_20_2.0" then some 50
  else if s = "BBU_20_2.0" then some 150
  else if s = "BBM_20_2.0" then some 99
  else if s = "CCI_14" then some 150
  else if s = "OBV" then some 5
  else if s = "WR_14" then some (-90)
  else none

/-- Previous row for the C8 counterexample: only a higher OBV is present. -/
def c8_prev : Row := fun s => if s = "OBV" then some 10 else none

/-- **C8 counterexample.** A Strong Buy result whose `signal_strength` is
"Weak": score 90 yields signal_type "Strong Buy", but confidence 62.5 lies in
[40, 70) so the final adjustment resets the strength to "Weak" — refuting the
claim that a Strong Buy always carries strength "Strong". -/
theorem generate_signals_strength_cex :
    (generate_signals c8_latest c8_prev).signal_type = "Strong Buy" ∧
    (generate_signals c8_latest c8_prev).signal_strength = "Weak" := by
  have h1 : evaluate_rsi c8_latest c8_prev = some ⟨.buy, 25⟩ := by
    norm_num +decide [evaluate_rsi, c8_latest, signalWeights]
  have h2 : evaluate_kdj c8_latest c8_prev = some ⟨.buy, 20⟩ := by
    norm_num +decide [evaluate_kdj, c8_latest, c8_prev, signalWeights]
  have h3 : evaluate_macd c8_latest c8_prev = some ⟨.buy, 20⟩ := by
    norm_num +decide [evaluate_macd, c8_latest, c8_prev, signalWeights]
  have h4 : evaluate_ma c8_latest c8_prev = some ⟨.buy, 15⟩ := by
    norm_num +decide [evaluate_ma, c8_latest, signalWeights]
  have h5 : evaluate_bollinger c8_latest = some ⟨.buy, 10⟩ := by
    norm_num +decide [evaluate_bollinger, c8_latest, signalWeights]
  have h6 : evaluate_cci c8_latest c8_prev = some ⟨.sell, 5⟩ := by
    norm_num +decide [evaluate_cci, c8_latest, signalWeights]
  have h7 : evaluate_obv c8_latest c8_prev = some ⟨.sell, 3⟩ := by
    norm_num +decide [evaluate_obv, c8_latest, c8_prev, signalWeights]
  have h8 : evaluate_williams c8_latest c8_prev = some ⟨.sell, 2⟩ := by
    norm_num +decide [evaluate_williams, c8_latest, signalWeights]
  have ht : tally c8_latest c8_prev =
      { total_weight := 100, buy_weight := 90, sell_weight := 10,
        forward_indicators :=
          [("RSI", ⟨.buy, 25⟩), ("KDJ", ⟨.buy, 20⟩), ("MACD", ⟨.buy, 20⟩),
           ("MA", ⟨.buy, 15⟩), ("BOLLINGER", ⟨.buy, 10⟩), ("CCI", ⟨.sell, 5⟩),
           ("OBV", ⟨.sell, 3⟩), ("WILLIAMS", ⟨.sell, 2⟩)] } := by
    simp only [tally, judgeResults, h1, h2, h3, h4, h5, h6, h7, h8,
      List.foldl_cons, List.foldl_nil, step]
    norm_num +decide
  have hscore : signal_score_of (tally c8_latest c8_prev) = 90 := by
    rw [ht]
    norm_num [signal_score_of]
  have hconf : confidence_of (tally c8_latest c8_prev).forward_indicators = 125 / 2 := by
    rw [ht]
    simp only [confidence_of, List.filter_cons, List.filter_nil]
    norm_num +decide
  constructor
  · rw [gs_type, hscore]
    norm_num [signal_type_of]
  · rw [gs_strength, hscore, hconf]
    norm_num [strength_of]

/-- **C10.** On any latest row without a `WR_14` column — in particular every
frame of the daily indicator engine, which emits Williams columns `WR1`/`WR2`
and never `WR_14` — the Williams judge returns null, the result contains no
WILLIAMS entry, and the Williams weight contributes to none of total, buy or
sell weight (the weight sums equal those of the other seven judges). -/
theorem williams_judge_dead (latest prev_latest : Row)
    (hw : latest "WR_14" = none) :
    evaluate_williams latest prev_latest = none ∧
    (∀ q ∈ (generate_signals latest prev_latest).forward_indicators,
      q.1 ≠ "WILLIAMS") ∧
    spec_total_weight (judgeResults latest prev_latest)
      = spec_total_weight ((judgeResults latest prev_latest).dropLast) ∧
    spec_buy_weight (judgeResults latest prev_latest)
      = spec_buy_weight ((judgeResults latest prev_latest).dropLast) ∧
    spec_sell_weight (judgeResults latest prev_latest)
      = spec_sell_weight ((judgeResults latest prev_latest).dropLast) := by
  have hwe : evaluate_williams latest prev_latest = none := by
    simp [evaluate_williams, hw]
  have hsplit : judgeResults latest prev_latest
      = (judgeResults latest prev_latest).dropLast
        ++ [("WILLIAMS", evaluate_williams latest prev_latest)] := rfl
  refine ⟨hwe, ?_, ?_, ?_, ?_⟩
  · intro q hq
    rw [gs_fwd, tally_fwd] at hq
    rcases List.mem_filterMap.mp hq with ⟨p, hp, hpq⟩
    rcases Option.map_eq_some'.mp hpq with ⟨r, hr, hq2⟩
    simp only [judgeResults, List.mem_cons, List.not_mem_nil, or_false] at hp
    rcases hp with rfl | rfl | rfl | rfl | rfl | rfl | rfl | rfl
    · subst hq2; exact (by decide : ("RSI" : String) ≠ "WILLIAMS")
    · subst hq2; exact (by decide : ("KDJ" : String) ≠ "WILLIAMS")
    · subst hq2; exact (by decide : ("MACD" : String) ≠ "WILLIAMS")
    · subst hq2; exact (by decide : ("MA" : String) ≠ "WILLIAMS")
    · subst hq2; exact (by decide : ("BOLLINGER" : String) ≠ "WILLIAMS")
    · subst hq2; exact (by decide : ("CCI" : String) ≠ "WILLIAMS")
    · subst hq2; exact (by decide : ("OBV" : String) ≠ "WILLIAMS")
    · exact absurd (show evaluate_williams latest prev_latest = some r from hr)
        (by rw [hwe]; simp)
  · conv_lhs => rw [hsplit]
    rw [hwe]
    simp [spec_total_weight, List.filterMap_append]
  · conv_lhs => rw [hsplit]
    rw [hwe]
    simp [spec_buy_weight, List.filterMap_append]
  · conv_lhs => rw [hsplit]
    rw [hwe]
    simp [spec_sell_weight, List.filterMap_append]

/-- Latest row for the C10 witness: a pipeline-style row (no WR_14 column)
with one available judge. -/
def c10_latest : Row := fun s => if s = "CCI_14" then some 0 else none

/-- Previous row for the C10 witness: empty. -/
def c10_prev : Row := fun _ => none

/-- Witness for C10 at a concrete pipeline-style row. -/
theorem williams_judge_dead_witness :
    c10_latest "WR_14" = none ∧
    (evaluate_williams c10_latest c10_prev = none ∧
      (∀ q ∈ (generate_signals c10_latest c10_prev).forward_indicators,
        q.1 ≠ "WILLIAMS") ∧
      spec_total_weight (judgeResults c10_latest c10_prev)
        = spec_total_weight ((judgeResults c10_latest c10_prev).dropLast) ∧
      spec_buy_weight (judgeResults c10_latest c10_prev)
        = spec_buy_weight ((judgeResults c10_latest c10_prev).dropLast) ∧
      spec_sell_weight (judgeResults c10_latest c10_prev)
        = spec_sell_weight ((judgeResults c10_latest c10_prev).dropLast)) :=
  ⟨by decide, williams_judge_dead c10_latest c10_prev (by decide)⟩

/-- Latest row for C2, modelled on the output of the daily indicator pipeline
(src/core/analysis.py + `calculate_forward_indicators`): it carries the
`RSI_14` column the pipeline computes — here 25, deep oversold — but no
`RSI_12` column, which no pipeline code ever produces.  `close`/`SMA_20` make
the MA judge available so the weight comparison is not vacuous. -/
def c2_latest : Row := fun s =>
  if s = "RSI_14" then some 25
  else if s = "close" then some 100
  else if s = "SMA_20" then some 90
  else none

/-- Previous row for C2: empty. -/
def c2_prev : Row := fun _ => none

/-- **C2 (code-bug evaluation).** On a pipeline-style row whose `RSI_14` is 25
(which the claim says must yield a Buy RSI entry of weight 25), the RSI judge
returns null — `_evaluate_rsi` reads the non-existent column `RSI_12` — so the
result has no RSI entry and the total weight counts only the MA judge's 15,
not 15 + 25. -/
theorem rsi_judge_dead_on_pipeline_rows :
    c2_latest "RSI_14" = some 25 ∧
    evaluate_rsi c2_latest c2_prev = none ∧
    (∀ q ∈ (generate_signals c2_latest c2_prev).forward_indicators, q.1 ≠ "RSI") ∧
    spec_total_weight (judgeResults c2_latest c2_prev) = 15 := by
  have e1 : evaluate_rsi c2_latest c2_prev = none := by decide
  have e2 : evaluate_kdj c2_latest c2_prev = none := by decide
  have e3 : evaluate_macd c2_latest c2_prev = none := by decide
  have e4 : evaluate_ma c2_latest c2_prev = some ⟨.buy, 15⟩ := by
    norm_num +decide [evaluate_ma, c2_latest, signalWeights]
  have e5 : evaluate_bollinger c2_latest = none := by decide
  have e6 : evaluate_cci c2_latest c2_prev = none := by decide
  have e7 : evaluate_obv c2_latest c2_prev = none := by decide
  have e8 : evaluate_williams c2_latest c2_prev = none := by decide
  refine ⟨by decide, e1, ?_, ?_⟩
  · intro q hq
    rw [gs_fwd, tally_fwd] at hq
    simp only [judgeResults, e1, e2, e3, e4, e5, e6, e7, e8] at hq
    simp only [List.filterMap_cons, Option.map_none', Option.map_some',
      List.filterMap_nil] at hq
    simp only [List.mem_cons, List.not_mem_nil, or_false] at hq
    subst hq
    exact (by decide : ("MA" : String) ≠ "RSI")
  · simp [spec_total_weight, judgeResults, e1, e2, e3, e4, e5, e6, e7, e8]

end SignalSystem

namespace Indicators

/-- `judge_trend_status` (src/core/indicators.py).  The Python assigns the
default "🟡 震荡趋势" first, but whenever `close` is present the
close-vs-SMA_20 block overwrites it (its if/else covers both cases and the
missing-SMA_20 else-branch assigns "🟡 均线数据不足"), so the default is dead
and only the final Bollinger-mid-band proximity check can produce
"🟡 震荡趋势".  The float literal `0.005` is modelled by the decimal rational
1/200. -/
def judge_trend_status (latest _prev_latest : Row) : String :=
  match latest "close" with
  | none => "🟡 数据异常"
  | some close =>
    let status : String :=
      match latest "SMA_20" with
      | some sma_20 => if close > sma_20 then "🟢 上升趋势" else "🔴 下降趋势"
      | none => "🟡 均线数据不足"
    match latest "BBM_20_2.0" with
    | some middle_bb =>
      if |close - middle_bb| / middle_bb < 1 / 200 then "🟡 震荡趋势" else status
    | none => status

/-- **C4 (amended).** Full characterization of `judge_trend_status`: missing
close yields the anomaly label, short-circuiting everything; otherwise the
Bollinger-mid-band proximity override (which runs last in the code and so
takes precedence over every SMA-based status, including the
insufficient-MA-data one) yields Oscillating; otherwise close vs SMA_20
classifies Uptrend/Downtrend, and a missing SMA_20 yields the
insufficient-MA-data label.  There is no SMA_20-vs-SMA_60 refinement and no
"Strong Uptrend"/"Weak Downtrend" label anywhere in the code. -/
theorem judge_trend_status_characterization (latest prev_latest : Row) :
    (latest "close" = none →
      judge_trend_status latest prev_latest = "🟡 数据异常") ∧
    (∀ c, latest "close" = some c →
      ((∃ m ∈ latest "BBM_20_2.0", |c - m| / m < 1 / 200) →
        judge_trend_status latest prev_latest = "🟡 震荡趋势") ∧
      ((∀ m ∈ latest "BBM_20_2.0", ¬(|c - m| / m < 1 / 200)) →
        ((∀ s ∈ latest "SMA_20", judge_trend_status latest prev_latest
            = if c > s then "🟢 上升趋势" else "🔴 下降趋势") ∧
          (latest "SMA_20" = none →
            judge_trend_status latest prev_latest = "🟡 均线数据不足")))) := by
  constructor
  · intro h
    unfold judge_trend_status
    rw [h]
  · intro c hc
    constructor
    · rintro ⟨m, hm, hlt⟩
      have hm' : latest "BBM_20_2.0" = some m := hm
      unfold judge_trend_status
      rw [hc]
      simp only [hm', if_pos hlt]
    · intro hno
      constructor
      · intro s hs
        have hs' : latest "SMA_20" = some s := hs
        unfold judge_trend_status
        rw [hc]
        simp only [hs']
        cases hb : latest "BBM_20_2.0" with
        | none => rfl
        | some m =>
          have := hno m (by rw [hb]; rfl)
          simp only [if_neg this]
      · intro hsm
        unfold judge_trend_status
        rw [hc]
        simp only [hsm]
        cases hb : latest "BBM_20_2.0" with
        | none => rfl
        | some m =>
          have := hno m (by rw [hb]; rfl)
          simp only [if_neg this]

/-- Latest row for the C4 counterexample: close present, SMA_20 missing, and
close sitting exactly on the Bollinger mid band. -/
def c4_latest : Row := fun s =>
  if s = "close" then some 100
  else if s = "BBM_20_2.0" then some 100
  else none

/-- Previous row for the C4 counterexample: empty. -/
def c4_prev : Row := fun _ => none

/-- **C4 counterexample.** With `close = 100`, `SMA_20` missing and the
Bollinger mid band at 100, the code returns "🟡 震荡趋势" (Oscillating), not
the insufficient-MA-data label the claim requires for a missing SMA_20: the
proximity override also overrides the insufficient-MA state. -/
theorem judge_trend_status_cex :
    judge_trend_status c4_latest c4_prev = "🟡 震荡趋势" ∧
    ("🟡 震荡趋势" : String) ≠ "🟡 均线数据不足" := by
  constructor
  · norm_num +decide [judge_trend_status, c4_latest]
  · decide

/-- Latest row for the C4 witness, uptrend side: close 100 above SMA_20 90,
mid band far away at 200. -/
def c4w_up : Row := fun s =>
  if s = "close" then some 100
  else if s = "SMA_20" then some 90
  else if s = "BBM_20_2.0" then some 200
  else none

/-- Latest row for the C4 witness, anomaly side: close missing. -/
def c4w_anom : Row := fun s => if s = "RSI_14" then some 50 else none

/-- Witness for C4 at concrete rows: a missing close yields the anomaly label;
a close above SMA_20 away from the mid band yields the uptrend label; the
override hypothesis is discharged at the counterexample-style row. -/
theorem judge_trend_status_characterization_witness :
    (c4w_anom "close" = none ∧
      judge_trend_status c4w_anom c4_prev = "🟡 数据异常") ∧
    (c4w_up "close" = some 100 ∧
      (∀ m ∈ c4w_up "BBM_20_2.0", ¬(|(100 : ℚ) - m| / m < 1 / 200)) ∧
      (∀ s ∈ c4w_up "SMA_20", judge_trend_status c4w_up c4_prev
          = if (100 : ℚ) > s then "🟢 上升趋势" else "🔴 下降趋势")) ∧
    (c4_latest "close" = some 100 ∧
      (∃ m ∈ c4_latest "BBM_20_2.0", |(100 : ℚ) - m| / m < 1 / 200) ∧
      judge_trend_status c4_latest c4_prev = "🟡 震荡趋势") := by
  refine ⟨⟨by decide, ?_⟩, ⟨by decide, ?_, ?_⟩, ⟨by decide, ?_, ?_⟩⟩
  · exact (judge_trend_status_characterization c4w_anom c4_prev).1 (by decide)
  · intro m hm
    have hm' : c4w_up "BBM_20_2.0" = some m := hm
    have h200 : (some (200 : ℚ)) = some m := by rw [← hm']; decide
    have hm2 : m = 200 := ((Option.some.injEq _ _).mp h200).symm
    subst hm2
    norm_num
  · exact fun s hs =>
      (((judge_trend_status_characterization c4w_up c4_prev).2 100 (by decide)).2
        (by
          intro m hm
          have hm' : c4w_up "BBM_20_2.0" = some m := hm
          have h200 : (some (200 : ℚ)) = some m := by rw [← hm']; decide
          have hm2 : m = 200 := ((Option.some.injEq _ _).mp h200).symm
          subst hm2
          norm_num)).1 s hs
  · exact ⟨100, by decide, by norm_num⟩
  · exact ((judge_trend_status_characterization c4_latest c4_prev).2 100 (by decide)).1
      ⟨100, by decide, by norm_num⟩

end Indicators

/-- IEEE-754 special values as observable in the pandas pipelines: `nan`,
`±inf`, or a finite value (an exact rational — every finite float the embedded
computations produce is exactly representable as a rational, and no embedded
comparison distinguishes a float from the rational it denotes).  Signed zero
is not modelled: no embedded operation observes it. -/
inductive Flt where
  | nan
  | inf
  | ninf
  | val (q : ℚ)
deriving DecidableEq, Repr

namespace Flt

/-- IEEE negation. -/
def fneg : Flt → Flt
  | nan => nan
  | inf => ninf
  | ninf => inf
  | val q => val (-q)

/-- IEEE addition. -/
def fadd : Flt → Flt → Flt
  | nan, _ => nan
  | _, nan => nan
  | inf, ninf => nan
  | ninf, inf => nan
  | inf, _ => inf
  | _, inf => inf
  | ninf, _ => ninf
  | _, ninf => ninf
  | val a, val b => val (a + b)

/-- IEEE subtraction. -/
def fsub (a b : Flt) : Flt := fadd a (fneg b)

/-- IEEE division: finite/0 gives a signed infinity (numpy float division,
as pandas performs it, yields inf with a warning rather than raising), 0/0
gives nan, finite/±inf gives 0. -/
def fdiv : Flt → Flt → Flt
  | nan, _ => nan
  | _, nan => nan
  | inf, inf => nan
  | inf, ninf => nan
  | ninf, inf => nan
  | ninf, ninf => nan
  | inf, val b => if b < 0 then ninf else inf
  | ninf, val b => if b < 0 then inf else ninf
  | val _, inf => val 0
  | val _, ninf => val 0
  | val a, val b =>
    if b = 0 then (if a = 0 then nan else if 0 < a then inf else ninf)
    else val (a / b)

/-- `Series.mean()` (skipna=True): nan observations are dropped; a surviving
infinity dominates; opposite infinities give nan; no observations give nan. -/
def fmean (l : List Flt) : Flt :=
  let obs := l.filter fun x => x ≠ nan
  if obs.isEmpty then nan
  else if obs.contains inf ∧ obs.contains ninf then nan
  else if obs.contains inf then inf
  else if obs.contains ninf then ninf
  else val ((obs.map fun x => match x with | val q => q | _ => 0).sum / obs.length)

/-- `x > q` on a float against a finite literal: nan compares false. -/
def gtq (x : Flt) (q : ℚ) : Bool :=
  match x with
  | nan => false
  | inf => true
  | ninf => false
  | val a => a > q

/-- `x < q` on a float against a finite literal: nan compares false. -/
def ltq (x : Flt) (q : ℚ) : Bool :=
  match x with
  | nan => false
  | inf => false
  | ninf => true
  | val a => a < q

end Flt

namespace Indicators

/-- The RSI gain series `(delta.where(delta > 0, 0))` of
`calculate_forward_indicators`: `delta = close.diff()` is NaN at index 0, and
`where` replaces every position whose condition is false — including the NaN
one, since NaN > 0 is false — by 0. -/
def gains (closes : List ℚ) : List ℚ :=
  (List.range closes.length).map fun i =>
    if i = 0 then 0
    else
      let d := closes.getD i 0 - closes.getD (i - 1) 0
      if d > 0 then d else 0

/-- The RSI loss series `(-delta.where(delta < 0, 0))`. -/
def losses (closes : List ℚ) : List ℚ :=
  (List.range closes.length).map fun i =>
    if i = 0 then 0
    else
      let d := closes.getD i 0 - closes.getD (i - 1) 0
      if d < 0 then -d else 0

/-- `rolling(window=14).mean()` at index `i`: NaN until the window holds 14
observations (min_periods defaults to the window size). -/
def roll14mean (xs : List ℚ) (i : ℕ) : Flt :=
  if 13 ≤ i ∧ i < xs.length then .val ((((xs.drop (i - 13)).take 14).sum) / 14)
  else .nan

/-- `RSI_14` at index `i` as `calculate_forward_indicators` computes it
(float semantics): `rs = gain / loss`, `RSI = 100 - 100 / (1 + rs)`.  There is
no special case for a zero average loss: `0/0` is NaN and propagates. -/
def rsi_14 (closes : List ℚ) (i : ℕ) : Flt :=
  let g := roll14mean (gains closes) i
  let l := roll14mean (losses closes) i
  let rs := Flt.fdiv g l
  Flt.fsub (.val 100) (Flt.fdiv (.val 100) (Flt.fadd (.val 1) rs))

theorem gains_replicate_all_zero {n : ℕ} {c : ℚ} :
    ∀ x ∈ gains (List.replicate n c), x = 0 := by
  intro x hx
  unfold gains at hx
  rcases List.mem_map.mp hx with ⟨i, hi, rfl⟩
  have hin : i < n := by simpa using List.mem_range.mp hi
  rcases Nat.eq_zero_or_pos i with rfl | hpos
  · simp
  · have h1 : (List.replicate n c).getD i 0 = c := by
      rw [List.getD_eq_getElem?_getD]
      simp [List.getElem?_replicate, hin]
    have h2 : (List.replicate n c).getD (i - 1) 0 = c := by
      rw [List.getD_eq_getElem?_getD]
      simp [List.getElem?_replicate, Nat.lt_of_le_of_lt (Nat.sub_le i 1) hin]
    rw [if_neg hpos.ne']
    simp only [h1, h2]
    norm_num

theorem losses_replicate_all_zero {n : ℕ} {c : ℚ} :
    ∀ x ∈ losses (List.replicate n c), x = 0 := by
  intro x hx
  unfold losses at hx
  rcases List.mem_map.mp hx with ⟨i, hi, rfl⟩
  have hin : i < n := by simpa using List.mem_range.mp hi
  rcases Nat.eq_zero_or_pos i with rfl | hpos
  · simp
  · have h1 : (List.replicate n c).getD i 0 = c := by
      rw [List.getD_eq_getElem?_getD]
      simp [List.getElem?_replicate, hin]
    have h2 : (List.replicate n c).getD (i - 1) 0 = c := by
      rw [List.getD_eq_getElem?_getD]
      simp [List.getElem?_replicate, Nat.lt_of_le_of_lt (Nat.sub_le i 1) hin]
    rw [if_neg hpos.ne']
    simp only [h1, h2]
    norm_num

theorem roll14mean_of_all_zero (xs : List ℚ) (hall : ∀ x ∈ xs, x = 0) (i : ℕ)
    (h13 : 13 ≤ i) (hlen : i < xs.length) : roll14mean xs i = .val 0 := by
  unfold roll14mean
  rw [if_pos ⟨h13, hlen⟩]
  have hz : (((xs.drop (i - 13)).take 14)).sum = 0 :=
    List.sum_eq_zero fun x hx =>
      hall x (List.mem_of_mem_drop (List.mem_of_mem_take hx))
  rw [hz]
  norm_num

theorem gains_length (closes : List ℚ) : (gains closes).length = closes.length := by
  simp [gains]

theorem losses_length (closes : List ℚ) : (losses closes).length = closes.length := by
  simp [losses]

/-- **C6 (code-bug evaluation).** On a well-formed constant close series of 15
bars, both the 14-bar average gain and average loss are 0 once defined, so
`rs = 0/0` is NaN and `RSI_14` is NaN at indices 13 and 14 — even though 14
deltas are available — contradicting the claim that RSI_14 is always in
[0, 100] (with a zero average loss mapped to 100) on well-formed inputs. -/
theorem rsi_14_nan_on_flat_series :
    rsi_14 (List.replicate 15 (100 : ℚ)) 13 = Flt.nan ∧
    rsi_14 (List.replicate 15 (100 : ℚ)) 14 = Flt.nan := by
  have hg13 : roll14mean (gains (List.replicate 15 (100 : ℚ))) 13 = .val 0 :=
    roll14mean_of_all_zero _ gains_replicate_all_zero 13 (by norm_num)
      (by rw [gains_length]; simp)
  have hg14 : roll14mean (gains (List.replicate 15 (100 : ℚ))) 14 = .val 0 :=
    roll14mean_of_all_zero _ gains_replicate_all_zero 14 (by norm_num)
      (by rw [gains_length]; simp)
  have hl13 : roll14mean (losses (List.replicate 15 (100 : ℚ))) 13 = .val 0 :=
    roll14mean_of_all_zero _ losses_replicate_all_zero 13 (by norm_num)
      (by rw [losses_length]; simp)
  have hl14 : roll14mean (losses (List.replicate 15 (100 : ℚ))) 14 = .val 0 :=
    roll14mean_of_all_zero _ losses_replicate_all_zero 14 (by norm_num)
      (by rw [losses_length]; simp)
  constructor
  · unfold rsi_14
    rw [hg13, hl13]
    norm_num [Flt.fdiv, Flt.fadd, Flt.fsub, Flt.fneg]
  · unfold rsi_14
    rw [hg14, hl14]
    norm_num [Flt.fdiv, Flt.fadd, Flt.fsub, Flt.fneg]

/-- `rolling(window=9).min()` of the close series at index `i` (min_periods
defaults to the window size, so the first 8 positions are NaN). -/
def roll9min (closes : List ℚ) (i : ℕ) : Option ℚ :=
  if 8 ≤ i ∧ i < closes.length then ((closes.drop (i - 8)).take 9).min? else none

/-- `rolling(window=9).max()` of the close series at index `i`. -/
def roll9max (closes : List ℚ) (i : ℕ) : Option ℚ :=
  if 8 ≤ i ∧ i < closes.length then ((closes.drop (i - 8)).take 9).max? else none

/-- RSV as `calculate_forward_indicators` computes it: both the rolling min
and the rolling max are taken over the CLOSE series — the high/low columns are
not consulted — and a zero range makes the quotient 0/0, i.e. NaN. -/
def rsv (closes : List ℚ) (i : ℕ) : Option ℚ :=
  match roll9min closes i, roll9max closes i with
  | some lo, some hi =>
    if hi - lo = 0 then none
    else some ((closes.getD i 0 - lo) / (hi - lo) * 100)
  | _, _ => none

/-- The RSV column as a list. -/
def rsvList (closes : List ℚ) : List (Option ℚ) :=
  (List.range closes.length).map (rsv closes)

/-- One step of pandas `ewm(com=2, adjust=False).mean()` (α = 1/3,
ignore_na = False): the state is `(weighted_avg, old_wt)`.  A missing
observation keeps the average and decays the old weight by 1−α = 2/3; an
observation first decays the old weight, then averages it with new weight
α = 1/3, then resets the old weight to 1. -/
def ewm_step (st : Option (ℚ × ℚ)) (a : Option ℚ) : Option (ℚ × ℚ) :=
  match st, a with
  | none, none => none
  | none, some x => some (x, 1)
  | some (y, w), none => some (y, w * (2/3))
  | some (y, w), some x =>
    some ((w * (2/3) * y + (1/3) * x) / (w * (2/3) + 1/3), 1)

/-- The emitted value at a position: the running weighted average, NaN before
the first observation (min_periods defaults to 0). -/
def ewm_out : Option (ℚ × ℚ) → Option ℚ
  | none => none
  | some (y, _) => some y

/-- `ewm(com=2, adjust=False).mean()` over a float series, from state `st`. -/
def ewm_go (st : Option (ℚ × ℚ)) : List (Option ℚ) → List (Option ℚ)
  | [] => []
  | a :: xs => ewm_out (ewm_step st a) :: ewm_go (ewm_step st a) xs

/-- `df["KDJ_K"] = rsv.ewm(com=2, adjust=False).mean()`. -/
def kdjK (closes : List ℚ) : List (Option ℚ) := ewm_go none (rsvList closes)

/-- `df["KDJ_D"] = df["KDJ_K"].ewm(com=2, adjust=False).mean()`. -/
def kdjD (closes : List ℚ) : List (Option ℚ) := ewm_go none (kdjK closes)

/-- `df["KDJ_J"] = 3 * df["KDJ_K"] - 2 * df["KDJ_D"]` (elementwise, NaN
propagating). -/
def kdjJ (closes : List ℚ) : List (Option ℚ) :=
  List.zipWith (fun k d =>
    match k, d with
    | some a, some b => some (3 * a - 2 * b)
    | _, _ => none) (kdjK closes) (kdjD closes)

/-- RSV as the claim words it: min over the LOW column and max over the HIGH
column across the trailing 9 bars (a second definition following the claim's
words, for comparison with the code's `rsv`). -/
def rsv_claimed (highs lows closes : List ℚ) (i : ℕ) : Option ℚ :=
  if 8 ≤ i ∧ i < closes.length then
    match ((lows.drop (i - 8)).take 9).min?, ((highs.drop (i - 8)).take 9).max? with
    | some lo, some hi =>
      if hi - lo = 0 then none
      else some ((closes.getD i 0 - lo) / (hi - lo) * 100)
    | _, _ => none
  else none

theorem ewm_go_cons (st : Option (ℚ × ℚ)) (a : Option ℚ) (xs : List (Option ℚ)) :
    ewm_go st (a :: xs) = ewm_out (ewm_step st a) :: ewm_go (ewm_step st a) xs := rfl

theorem ewm_go_length (st : Option (ℚ × ℚ)) (l : List (Option ℚ)) :
    (ewm_go st l).length = l.length := by
  induction l generalizing st with
  | nil => rfl
  | cons a xs ih => rw [ewm_go_cons]; simp [ih]

theorem ewm_go_get?_leading_none (l : List (Option ℚ)) (j : ℕ)
    (h : ∀ k, k ≤ j → l.get? k = some none) :
    (ewm_go none l).get? j = some none := by
  induction l generalizing j with
  | nil =>
    have h0 := h 0 (Nat.zero_le _)
    simp at h0
  | cons a xs ih =>
    have h0 := h 0 (Nat.zero_le _)
    simp at h0
    subst h0
    cases j with
    | zero => rfl
    | succ j' =>
      rw [ewm_go_cons]
      have hst : ewm_step none (none : Option ℚ) = none := rfl
      rw [hst]
      simp only [List.get?_cons_succ]
      exact ih j' fun k hk => by
        have := h (k + 1) (Nat.succ_le_succ hk)
        simpa using this

theorem ewm_go_get?_first_valid (l : List (Option ℚ)) (n : ℕ) (x : ℚ)
    (hx : l.get? n = some (some x)) (hlead : ∀ k, k < n → l.get? k = some none) :
    (ewm_go none l).get? n = some (some x) := by
  induction l generalizing n with
  | nil => simp at hx
  | cons a xs ih =>
    cases n with
    | zero =>
      simp at hx
      subst hx
      rfl
    | succ n' =>
      have h0 := hlead 0 (Nat.succ_pos _)
      simp at h0
      subst h0
      rw [ewm_go_cons]
      have hst : ewm_step none (none : Option ℚ) = none := rfl
      rw [hst]
      simp only [List.get?_cons_succ]
      exact ih n' (by simpa using hx) fun k hk => by
        simpa using hlead (k + 1) (Nat.succ_lt_succ hk)

theorem ewm_go_get?_isSome (l : List (Option ℚ)) (st : Option (ℚ × ℚ)) (i : ℕ) (x : ℚ)
    (hx : l.get? i = some (some x)) :
    ∃ y, (ewm_go st l).get? i = some (some y) := by
  induction l generalizing st i with
  | nil => simp at hx
  | cons a xs ih =>
    cases i with
    | zero =>
      simp at hx
      subst hx
      rw [ewm_go_cons]
      cases st with
      | none => exact ⟨x, rfl⟩
      | some p =>
        obtain ⟨y, w⟩ := p
        exact ⟨_, rfl⟩
    | succ i' =>
      rw [ewm_go_cons]
      simp only [List.get?_cons_succ]
      exact ih (ewm_step st a) i' (by simpa using hx)

theorem ewm_fresh_avg (u v : ℚ) :
    (1 * (2/3) * u + 1/3 * v) / (1 * (2/3) + 1/3) = (2 * u + v) / 3 := by
  rw [show (1 * (2/3 : ℚ) + 1/3) = 1 by norm_num, div_one]
  ring

/-- The adjust=False recurrence: when position `i` holds an observation — so
the decayed old weight was just reset to 1 — and position `i+1` holds one too,
the next average is `(2·prev + new) / 3`. -/
theorem ewm_go_get?_rec (l : List (Option ℚ)) (st : Option (ℚ × ℚ)) (i : ℕ) (y xi x : ℚ)
    (hy : (ewm_go st l).get? i = some (some y))
    (hxi : l.get? i = some (some xi))
    (hx : l.get? (i + 1) = some (some x)) :
    (ewm_go st l).get? (i + 1) = some (some ((2 * y + x) / 3)) := by
  induction l generalizing st i with
  | nil => simp at hxi
  | cons a xs ih =>
    cases i with
    | zero =>
      simp at hxi
      subst hxi
      have hx0 : xs.get? 0 = some (some x) := by simpa using hx
      rw [ewm_go_cons] at hy ⊢
      simp only [List.get?_cons_succ]
      cases xs with
      | nil => simp at hx0
      | cons b xs' =>
        simp at hx0
        subst hx0
        cases st with
        | none =>
          simp only [List.get?_cons_zero, ewm_step, ewm_out, Option.some.injEq] at hy
          rw [ewm_go_cons]
          simp only [ewm_step, ewm_out, List.get?_cons_zero, Option.some.injEq]
          rw [hy]
          exact ewm_fresh_avg y x
        | some p =>
          obtain ⟨y0, w0⟩ := p
          simp only [List.get?_cons_zero, ewm_step, ewm_out, Option.some.injEq] at hy
          rw [ewm_go_cons]
          simp only [ewm_step, ewm_out, List.get?_cons_zero, Option.some.injEq]
          rw [hy]
          exact ewm_fresh_avg y x
    | succ i' =>
      rw [ewm_go_cons] at hy ⊢
      simp only [List.get?_cons_succ] at hy ⊢
      exact ih (ewm_step st a) i' hy (by simpa using hxi) (by simpa using hx)

theorem zipWith_get?_some {α β γ : Type} (f : α → β → γ) (l1 : List α) (l2 : List β)
    (i : ℕ) (a : α) (b : β)
    (h1 : l1.get? i = some a) (h2 : l2.get? i = some b) :
    (List.zipWith f l1 l2).get? i = some (f a b) := by
  induction l1 generalizing l2 i with
  | nil => simp at h1
  | cons x xs ih =>
    cases l2 with
    | nil => simp at h2
    | cons y ys =>
      cases i with
      | zero =>
        simp at h1 h2
        subst h1
        subst h2
        rfl
      | succ i' =>
        simp only [List.zipWith_cons_cons, List.get?_cons_succ] at h1 h2 ⊢
        exact ih ys i' h1 h2

theorem rsvList_get? (closes : List ℚ) (i : ℕ) (h : i < closes.length) :
    (rsvList closes).get? i = some (rsv closes i) := by
  unfold rsvList
  rw [List.get?_map, List.get?_range h]
  rfl

theorem rsvList_length (closes : List ℚ) : (rsvList closes).length = closes.length := by
  simp [rsvList]

theorem rsv_lt_8 (closes : List ℚ) (i : ℕ) (h : i < 8) : rsv closes i = none := by
  unfold rsv roll9min roll9max
  rw [if_neg fun hc => absurd hc.1 (by omega)]

/-- **C7 (amended).** The daily KDJ of `calculate_forward_indicators`
satisfies: RSV is computed from the CLOSE series alone — `RSV_i =
(close_i − min(close, 9)) / (max(close, 9) − min(close, 9)) × 100` — with a
zero range yielding null rather than a crash; K is the `com=2, adjust=False`
exponential smoothing of RSV (fresh-start at the first defined RSV, recurrence
`K_{i+1} = (2·K_i + RSV_{i+1})/3` across defined positions); D is the same
smoothing of K; and J = 3K − 2D elementwise. -/
theorem kdj_pipeline_characterization :
    (∀ (closes : List ℚ) (i : ℕ) (lo : ℚ), roll9min closes i = some lo →
      roll9max closes i = some lo → rsv closes i = none) ∧
    (∀ (closes : List ℚ) (i : ℕ) (lo hi : ℚ), roll9min closes i = some lo →
      roll9max closes i = some hi → hi - lo ≠ 0 →
      rsv closes i = some ((closes.getD i 0 - lo) / (hi - lo) * 100)) ∧
    ∀ closes : List ℚ,
      (∀ i, 8 ≤ i → i < closes.length → rsv closes i ≠ none) →
      (∀ i, i < 8 → i < closes.length →
        (kdjK closes).get? i = some none ∧ (kdjD closes).get? i = some none) ∧
      (8 < closes.length →
        (kdjK closes).get? 8 = some (rsv closes 8) ∧
        (kdjD closes).get? 8 = (kdjK closes).get? 8) ∧
      (∀ i, 8 ≤ i → i < closes.length → ∃ k, (kdjK closes).get? i = some (some k)) ∧
      (∀ i k r, 8 ≤ i → i + 1 < closes.length →
        (kdjK closes).get? i = some (some k) → rsv closes (i + 1) = some r →
        (kdjK closes).get? (i + 1) = some (some ((2 * k + r) / 3))) ∧
      (∀ i d k, 8 ≤ i → i + 1 < closes.length →
        (kdjD closes).get? i = some (some d) →
        (kdjK closes).get? (i + 1) = some (some k) →
        (kdjD closes).get? (i + 1) = some (some ((2 * d + k) / 3))) ∧
      (∀ i a b, (kdjK closes).get? i = some (some a) →
        (kdjD closes).get? i = some (some b) →
        (kdjJ closes).get? i = some (some (3 * a - 2 * b))) := by
  refine ⟨?_, ?_, ?_⟩
  · intro closes i lo h1 h2
    unfold rsv
    rw [h1, h2]
    simp
  · intro closes i lo hi h1 h2 hne
    unfold rsv
    rw [h1, h2]
    simp [hne]
  · intro closes h9
    have hKnone : ∀ i, i < 8 → i < closes.length → (kdjK closes).get? i = some none := by
      intro i hi8 hilen
      unfold kdjK
      exact ewm_go_get?_leading_none _ i fun k hk => by
        rw [rsvList_get? closes k (lt_of_le_of_lt hk hilen),
          rsv_lt_8 closes k (lt_of_le_of_lt hk hi8)]
    have hKsome : ∀ i, 8 ≤ i → i < closes.length →
        ∃ k, (kdjK closes).get? i = some (some k) := by
      intro i hi8 hilen
      obtain ⟨r, hr⟩ := Option.ne_none_iff_exists'.mp (h9 i hi8 hilen)
      exact ewm_go_get?_isSome (rsvList closes) none i r
        (by rw [rsvList_get? closes i hilen, hr])
    have hK8 : 8 < closes.length → (kdjK closes).get? 8 = some (rsv closes 8) := by
      intro hlen
      obtain ⟨r, hr⟩ := Option.ne_none_iff_exists'.mp (h9 8 le_rfl hlen)
      rw [hr]
      unfold kdjK
      exact ewm_go_get?_first_valid _ 8 r
        (by rw [rsvList_get? closes 8 hlen, hr])
        (fun k hk => by
          rw [rsvList_get? closes k (lt_trans hk hlen), rsv_lt_8 closes k hk])
    refine ⟨?_, ?_, hKsome, ?_, ?_, ?_⟩
    · intro i hi8 hilen
      refine ⟨hKnone i hi8 hilen, ?_⟩
      unfold kdjD
      exact ewm_go_get?_leading_none _ i fun k hk =>
        hKnone k (lt_of_le_of_lt hk hi8) (lt_of_le_of_lt hk hilen)
    · intro hlen
      refine ⟨hK8 hlen, ?_⟩
      obtain ⟨k8, hk8⟩ := hKsome 8 le_rfl hlen
      rw [hk8]
      unfold kdjD
      exact ewm_go_get?_first_valid _ 8 k8 hk8
        (fun k hk => hKnone k hk (lt_trans hk hlen))
    · intro i k r hi8 hilen hk hr
      obtain ⟨ri, hri⟩ := Option.ne_none_iff_exists'.mp
        (h9 i hi8 (Nat.lt_of_succ_lt hilen))
      exact ewm_go_get?_rec (rsvList closes) none i k ri r hk
        (by rw [rsvList_get? closes i (Nat.lt_of_succ_lt hilen), hri])
        (by rw [rsvList_get? closes (i + 1) hilen, hr])
    · intro i d k hi8 hilen hd hk
      obtain ⟨ki, hki⟩ := hKsome i hi8 (Nat.lt_of_succ_lt hilen)
      exact ewm_go_get?_rec (kdjK closes) none i d ki k hd hki hk
    · intro i a b ha hb
      exact zipWith_get?_some _ (kdjK closes) (kdjD closes) i (some a) (some b) ha hb

/-- Close series for the C7 counterexample: flat then one rise. -/
def c7_closes : List ℚ := [10, 10, 10, 10, 10, 10, 10, 10, 12]

/-- High column for the C7 counterexample: wider than the closes. -/
def c7_highs : List ℚ := List.replicate 9 20

/-- Low column for the C7 counterexample: lower than the closes. -/
def c7_lows : List ℚ := List.replicate 9 5

/-- **C7 counterexample.** On a frame whose high and low columns differ from
the closes, the code's RSV (close-based min/max) is 100 at the last bar, while
the claimed RSV (low-based min, high-based max) is 140/3 ≈ 46.7: the daily KDJ
does not use the high/low columns. -/
theorem kdj_close_only_cex :
    rsv c7_closes 8 = some 100 ∧
    rsv_claimed c7_highs c7_lows c7_closes 8 = some (140 / 3) ∧
    rsv c7_closes 8 ≠ rsv_claimed c7_highs c7_lows c7_closes 8 := by
  have h1 : rsv c7_closes 8 = some 100 := by
    norm_num [rsv, roll9min, roll9max, c7_closes, List.min?, List.max?]
  have h2 : rsv_claimed c7_highs c7_lows c7_closes 8 = some (140 / 3) := by
    norm_num [rsv_claimed, c7_highs, c7_lows, c7_closes, List.min?, List.max?,
      List.replicate]
  refine ⟨h1, h2, ?_⟩
  rw [h1, h2]
  intro hcontra
  rw [Option.some.injEq] at hcontra
  norm_num at hcontra

/-- Close series for the C7 witness: every 9-bar window has a nonzero range. -/
def c7w_closes : List ℚ := [10, 10, 10, 10, 10, 10, 10, 10, 12, 14]

/-- Witness for C7: the zero-range clause at a constant window, and the
pipeline clauses at a 10-bar series with defined RSV. -/
theorem kdj_pipeline_characterization_witness :
    (roll9min (List.replicate 9 (7 : ℚ)) 8 = some 7 ∧
      roll9max (List.replicate 9 (7 : ℚ)) 8 = some 7 ∧
      rsv (List.replicate 9 (7 : ℚ)) 8 = none) ∧
    ((∀ i, 8 ≤ i → i < c7w_closes.length → rsv c7w_closes i ≠ none) ∧
      (kdjK c7w_closes).get? 0 = some none ∧
      (kdjK c7w_closes).get? 8 = some (rsv c7w_closes 8)) := by
  have hmin : roll9min (List.replicate 9 (7 : ℚ)) 8 = some 7 := by
    norm_num [roll9min, List.min?, List.replicate]
  have hmax : roll9max (List.replicate 9 (7 : ℚ)) 8 = some 7 := by
    norm_num [roll9max, List.max?, List.replicate]
  have h9 : ∀ i, 8 ≤ i → i < c7w_closes.length → rsv c7w_closes i ≠ none := by
    intro i h8 hlen
    have hlen10 : i < 10 := by simpa [c7w_closes] using hlen
    interval_cases i
    all_goals norm_num [rsv, roll9min, roll9max, c7w_closes, List.min?, List.max?]
    all_goals simp
  refine ⟨⟨hmin, hmax, kdj_pipeline_characterization.1 _ 8 7 hmin hmax⟩, h9, ?_, ?_⟩
  · exact ((kdj_pipeline_characterization.2.2 c7w_closes h9).1 0 (by norm_num)
      (by norm_num [c7w_closes])).1
  · exact ((kdj_pipeline_characterization.2.2 c7w_closes h9).2.1
      (by norm_num [c7w_closes])).1

end Indicators

namespace Predictor

/-- A DataFrame as `PricePredictor` consumes it: the required close column,
the optional high/low columns, and the indicator columns of the last row
(`historical_data.iloc[-1]`), looked up by name — `none` means the column is
absent, `some none` that it is present but NaN at the last row. -/
structure DataFrame where
  closes : List ℚ
  highs : Option (List ℚ)
  lows : Option (List ℚ)
  latestInd : String → Option (Option ℚ)

/-- Python `round` to an integer: round-half-to-even. -/
def roundHalfEven (x : ℚ) : ℤ :=
  let f := ⌊x⌋
  let r := x - f
  if r < 1/2 then f
  else if r > 1/2 then f + 1
  else if 2 ∣ f then f else f + 1

/-- `round(x, 2)`. -/
def round2 (x : ℚ) : ℚ := (roundHalfEven (x * 100) : ℚ) / 100

/-- `round(x, 1)`. -/
def round1 (x : ℚ) : ℚ := (roundHalfEven (x * 10) : ℚ) / 10

/-- Insertion into a strictly-increasing list, dropping duplicates: folding it
models Python's `sorted(list(set(l)))`, the strictly increasing enumeration of
the distinct values. -/
def sorted_insert (x : ℚ) : List ℚ → List ℚ
  | [] => [x]
  | y :: ys =>
    if x < y then x :: y :: ys
    else if x = y then y :: ys
    else y :: sorted_insert x ys

/-- `sorted(list(set(l)))`. -/
def sorted_dedup (l : List ℚ) : List ℚ := l.foldr sorted_insert []

theorem sorted_insert_forall {P : ℚ → Prop} {x : ℚ} {l : List ℚ}
    (hx : P x) (hl : ∀ y ∈ l, P y) : ∀ y ∈ sorted_insert x l, P y := by
  induction l with
  | nil =>
    intro y hy
    simp only [sorted_insert, List.mem_singleton] at hy
    subst hy
    exact hx
  | cons z zs ih =>
    intro y hy
    unfold sorted_insert at hy
    split_ifs at hy
    · rcases List.mem_cons.mp hy with rfl | hy
      · exact hx
      · exact hl y hy
    · exact hl y hy
    · rcases List.mem_cons.mp hy with rfl | hy
      · exact hl y (List.mem_cons_self _ _)
      · exact ih (fun u hu => hl u (List.mem_cons_of_mem _ hu)) y hy

theorem sorted_insert_sorted (x : ℚ) (l : List ℚ) (h : List.Sorted (· < ·) l) :
    List.Sorted (· < ·) (sorted_insert x l) := by
  induction l with
  | nil => simp [sorted_insert]
  | cons z zs ih =>
    rw [List.sorted_cons] at h
    obtain ⟨hz, hzs⟩ := h
    unfold sorted_insert
    split_ifs with h1 h2
    · refine List.sorted_cons.mpr ⟨?_, List.sorted_cons.mpr ⟨hz, hzs⟩⟩
      intro b hb
      rcases List.mem_cons.mp hb with rfl | hb
      · exact h1
      · exact lt_trans h1 (hz b hb)
    · exact List.sorted_cons.mpr ⟨hz, hzs⟩
    · refine List.sorted_cons.mpr ⟨?_, ih hzs⟩
      have hzx : z < x := by
        rcases lt_trichotomy x z with hc | hc | hc
        · exact absurd hc h1
        · exact absurd hc h2
        · exact hc
      exact sorted_insert_forall hzx hz

theorem sorted_dedup_sorted (l : List ℚ) : List.Sorted (· < ·) (sorted_dedup l) := by
  induction l with
  | nil => simp [sorted_dedup]
  | cons x xs ih => exact sorted_insert_sorted x _ ih

/-- The row-wise true range `concat([tr1, tr2, tr3], axis=1).max(axis=1)`:
at index 0 the shifted close is NaN and the row max skips it, leaving
high − low. -/
def tr_list (highSeries lowSeries closes : List ℚ) : List ℚ :=
  (List.range closes.length).map fun i =>
    let h := highSeries.getD i 0
    let l := lowSeries.getD i 0
    if i = 0 then h - l
    else max (h - l) (max |h - closes.getD (i - 1) 0| |l - closes.getD (i - 1) 0|)

/-- `high_series.iloc[-20:].max()` (the frame has at least 20 rows whenever
this is consulted). -/
def high20 (frame : DataFrame) : ℚ :=
  let hs := frame.highs.getD frame.closes
  ((hs.drop (hs.length - 20)).max?).getD 0

/-- `low_series.iloc[-20:].min()`. -/
def low20 (frame : DataFrame) : ℚ :=
  let ls := frame.lows.getD frame.closes
  ((ls.drop (ls.length - 20)).min?).getD 0

/-- The ATR of `_calculate_support_resistance_debug`: the mean of the last 14
true ranges when the frame has at least 14 rows, else the simplified
`(high − low) * 0.1`. -/
def atr_of (frame : DataFrame) : ℚ :=
  if 14 ≤ frame.closes.length then
    let trs := tr_list (frame.highs.getD frame.closes) (frame.lows.getD frame.closes)
      frame.closes
    ((trs.drop (trs.length - 14)).take 14).sum / 14
  else (high20 frame - low20 frame) * (1/10)

/-- The raw support candidates, in the order the code appends them: the 20-bar
low; the Bollinger lower band when present and non-NaN; SMA_20 and SMA_60 when
present, non-NaN and below the current price; and the two ATR offsets. -/
def support_candidates (frame : DataFrame) (current_price : ℚ) : List ℚ :=
  [low20 frame]
  ++ (match frame.latestInd "BBL_20_2.0" with
      | some (some v) => [v]
      | _ => [])
  ++ (match frame.latestInd "SMA_20" with
      | some (some v) => if v < current_price then [v] else []
      | _ => [])
  ++ (match frame.latestInd "SMA_60" with
      | some (some v) => if v < current_price then [v] else []
      | _ => [])
  ++ [current_price - atr_of frame * (3/2), current_price - atr_of frame * 3]

/-- The raw resistance candidates: the 20-bar high; the Bollinger upper band;
SMA_5, SMA_10, SMA_20 when present, non-NaN and above the current price; and
the two ATR offsets. -/
def resistance_candidates (frame : DataFrame) (current_price : ℚ) : List ℚ :=
  [high20 frame]
  ++ (match frame.latestInd "BBU_20_2.0" with
      | some (some v) => [v]
      | _ => [])
  ++ (match frame.latestInd "SMA_5" with
      | some (some v) => if current_price < v then [v] else []
      | _ => [])
  ++ (match frame.latestInd "SMA_10" with
      | some (some v) => if current_price < v then [v] else []
      | _ => [])
  ++ (match frame.latestInd "SMA_20" with
      | some (some v) => if current_price < v then [v] else []
      | _ => [])
  ++ [current_price + atr_of frame * (3/2), current_price + atr_of frame * 3]

/-- `sorted(list(set([round(v, 2) for v in support_levels if v > 0])))`
followed by the `< current_price` filter. -/
def support_levels_of (frame : DataFrame) (current_price : ℚ) : List ℚ :=
  (sorted_dedup (((support_candidates frame current_price).filter
    fun v => 0 < v).map round2)).filter fun v => v < current_price

/-- The resistance analogue, filtered to `> current_price`. -/
def resistance_levels_of (frame : DataFrame) (current_price : ℚ) : List ℚ :=
  (sorted_dedup (((resistance_candidates frame current_price).filter
    fun v => 0 < v).map round2)).filter fun v => current_price < v

/-- The support/resistance result dict; `atr` is absent on the short-history
early return. -/
structure SRResult where
  support : List ℚ
  resistance : List ℚ
  atr : Option ℚ
deriving DecidableEq, Repr

/-- `PricePredictor._calculate_support_resistance_debug` (the result; the
debug-info dict is not modelled, and the `isinstance(DataFrame)` guard always
passes in this embedding).  `support_levels[-3:]` keeps the last (largest)
three supports, `resistance_levels[:3]` the first (smallest) three
resistances. -/
def calc_support_resistance (frame : DataFrame) (current_price : ℚ) : SRResult :=
  if frame.closes.length < 20 then { support := [], resistance := [], atr := none }
  else
    let s := support_levels_of frame current_price
    let r := resistance_levels_of frame current_price
    { support := if 3 < s.length then s.drop (s.length - 3) else s
      resistance := if 3 < r.length then r.take 3 else r
      atr := some (atr_of frame) }

theorem support_levels_sorted (frame : DataFrame) (cp : ℚ) :
    List.Sorted (· < ·) (support_levels_of frame cp) :=
  (sorted_dedup_sorted _).filter _

theorem resistance_levels_sorted (frame : DataFrame) (cp : ℚ) :
    List.Sorted (· < ·) (resistance_levels_of frame cp) :=
  (sorted_dedup_sorted _).filter _

/-- **C9.** For every support/resistance result computed from a frame of at
least 20 rows with a positive current price: every support is strictly below
the current price and every resistance strictly above it, both lists are
sorted ascending with at most 3 entries, and they keep exactly the candidate
levels nearest the current price on their side — any candidate level left out
of the support list is below every kept support, and any left out of the
resistance list is above every kept resistance. -/
theorem support_resistance_props (frame : DataFrame) (current_price : ℚ)
    (hlen : 20 ≤ frame.closes.length) (hcp : 0 < current_price) :
    (∀ v ∈ (calc_support_resistance frame current_price).support, v < current_price) ∧
    (∀ v ∈ (calc_support_resistance frame current_price).resistance, current_price < v) ∧
    List.Sorted (· < ·) (calc_support_resistance frame current_price).support ∧
    List.Sorted (· < ·) (calc_support_resistance frame current_price).resistance ∧
    (calc_support_resistance frame current_price).support.length ≤ 3 ∧
    (calc_support_resistance frame current_price).resistance.length ≤ 3 ∧
    (∀ x ∈ support_levels_of frame current_price,
      x ∉ (calc_support_resistance frame current_price).support →
      ∀ y ∈ (calc_support_resistance frame current_price).support, x < y) ∧
    (∀ x ∈ resistance_levels_of frame current_price,
      x ∉ (calc_support_resistance frame current_price).resistance →
      ∀ y ∈ (calc_support_resistance frame current_price).resistance, y < x) := by
  have hnot : ¬(frame.closes.length < 20) := not_lt.mpr hlen
  set s := support_levels_of frame current_price with hs_def
  set r := resistance_levels_of frame current_price with hr_def
  have hsupp : (calc_support_resistance frame current_price).support
      = if 3 < s.length then s.drop (s.length - 3) else s := by
    unfold calc_support_resistance
    rw [if_neg hnot]
  have hres : (calc_support_resistance frame current_price).resistance
      = if 3 < r.length then r.take 3 else r := by
    unfold calc_support_resistance
    rw [if_neg hnot]
  have hs_sorted : List.Sorted (· < ·) s := support_levels_sorted frame current_price
  have hr_sorted : List.Sorted (· < ·) r := resistance_levels_sorted frame current_price
  have hs_sub : ∀ v ∈ (calc_support_resistance frame current_price).support, v ∈ s := by
    intro v hv
    rw [hsupp] at hv
    split at hv
    · exact List.mem_of_mem_drop hv
    · exact hv
  have hr_sub : ∀ v ∈ (calc_support_resistance frame current_price).resistance, v ∈ r := by
    intro v hv
    rw [hres] at hv
    split at hv
    · exact List.mem_of_mem_take hv
    · exact hv
  have hs_lt : ∀ v ∈ s, v < current_price := by
    intro v hv
    have := List.of_mem_filter (p := fun v => decide (v < current_price)) hv
    simpa using this
  have hr_gt : ∀ v ∈ r, current_price < v := by
    intro v hv
    have := List.of_mem_filter (p := fun v => decide (current_price < v)) hv
    simpa using this
  refine ⟨fun v hv => hs_lt v (hs_sub v hv), fun v hv => hr_gt v (hr_sub v hv),
    ?_, ?_, ?_, ?_, ?_, ?_⟩
  · rw [hsupp]
    split
    · exact hs_sorted.drop
    · exact hs_sorted
  · rw [hres]
    split
    · exact hr_sorted.take
    · exact hr_sorted
  · rw [hsupp]
    split
    case isTrue h => rw [List.length_drop]; omega
    case isFalse h => exact le_of_not_lt h
  · rw [hres]
    split
    case isTrue h => exact List.length_take_le 3 r
    case isFalse h => exact le_of_not_lt h
  · intro x hx hnotin y hy
    rw [hsupp] at hnotin hy
    by_cases hlen3 : 3 < s.length
    · rw [if_pos hlen3] at hnotin hy
      have hx_take : x ∈ s.take (s.length - 3) := by
        have := (List.take_append_drop (s.length - 3) s).symm
        rw [this] at hx
        rcases List.mem_append.mp hx with h | h
        · exact h
        · exact absurd h hnotin
      have hpw := hs_sorted
      rw [← List.take_append_drop (s.length - 3) s] at hpw
      rw [List.Sorted, List.pairwise_append] at hpw
      exact hpw.2.2 x hx_take y hy
    · rw [if_neg hlen3] at hnotin
      exact absurd hx hnotin
  · intro x hx hnotin y hy
    rw [hres] at hnotin hy
    by_cases hlen3 : 3 < r.length
    · rw [if_pos hlen3] at hnotin hy
      have hx_drop : x ∈ r.drop 3 := by
        have := (List.take_append_drop 3 r).symm
        rw [this] at hx
        rcases List.mem_append.mp hx with h | h
        · exact absurd h hnotin
        · exact h
      have hpw := hr_sorted
      rw [← List.take_append_drop 3 r] at hpw
      rw [List.Sorted, List.pairwise_append] at hpw
      exact hpw.2.2 y hy x hx_drop
    · rw [if_neg hlen3] at hnotin
      exact absurd hx hnotin

/-- Frame for the C9 witness: 19 flat bars then a rise to 105. -/
def c9_frame : DataFrame :=
  { closes := List.replicate 19 100 ++ [105], highs := none, lows := none,
    latestInd := fun _ => none }

/-- Witness for C9 at a concrete 20-row frame with current price 105. -/
theorem support_resistance_props_witness :
    20 ≤ c9_frame.closes.length ∧ (0 : ℚ) < 105 ∧
    ((∀ v ∈ (calc_support_resistance c9_frame 105).support, v < 105) ∧
      (∀ v ∈ (calc_support_resistance c9_frame 105).resistance, (105 : ℚ) < v) ∧
      List.Sorted (· < ·) (calc_support_resistance c9_frame 105).support ∧
      List.Sorted (· < ·) (calc_support_resistance c9_frame 105).resistance ∧
      (calc_support_resistance c9_frame 105).support.length ≤ 3 ∧
      (calc_support_resistance c9_frame 105).resistance.length ≤ 3 ∧
      (∀ x ∈ support_levels_of c9_frame 105,
        x ∉ (calc_support_resistance c9_frame 105).support →
        ∀ y ∈ (calc_support_resistance c9_frame 105).support, x < y) ∧
      (∀ x ∈ resistance_levels_of c9_frame 105,
        x ∉ (calc_support_resistance c9_frame 105).resistance →
        ∀ y ∈ (calc_support_resistance c9_frame 105).resistance, y < x)) :=
  ⟨by decide, by norm_num,
    support_resistance_props c9_frame 105 (by decide) (by norm_num)⟩

/-- The trend-probability dict `{up, down, sideways}` (percentages rounded to
one decimal). -/
structure TrendProb where
  up : ℚ
  down : ℚ
  sideways : ℚ
deriving DecidableEq, Repr

/-- The three running scores of `_predict_trend_probability`. -/
structure Scores where
  up : ℚ
  down : ℚ
  side : ℚ
deriving DecidableEq, Repr

/-- `close.pct_change()` as floats: NaN at index 0; division by a zero
previous close follows IEEE. -/
def pct_changes (closes : List ℚ) : List Flt :=
  (List.range closes.length).map fun i =>
    if i = 0 then .nan
    else Flt.fdiv (.val (closes.getD i 0 - closes.getD (i - 1) 0))
      (.val (closes.getD (i - 1) 0))

/-- `PricePredictor._predict_trend_probability` (the bare-except {33,33,34}
fallback is unreachable in this embedding).  `signal_data` is `none` for a
missing or falsy dict — an empty dict is falsy in Python, which is how
analysis.py calls the predictor — and `some s` for a truthy dict whose
`.get("signal_score", 50)` yields `s`.  Float literals 0.005 and 0.333 are
modelled by the decimals they denote. -/
def predict_trend_probability (frame : DataFrame) (latest : Row)
    (signal_data : Option ℚ) : TrendProb :=
  let s0 : Scores := { up := 0, down := 0, side := 10 }
  let s1 : Scores :=
    match signal_data with
    | some signal_score =>
      if signal_score > 50 then { s0 with up := s0.up + (signal_score - 50) * (1/2) }
      else if signal_score < 50 then
        { s0 with down := s0.down + (50 - signal_score) * (1/2) }
      else { s0 with side := s0.side + 1/2 }
    | none => s0
  let s2 : Scores :=
    match latest "SMA_5", latest "SMA_20" with
    | some sma_5, some sma_20 =>
      match latest "close" with
      | some close =>
        if close > sma_5 ∧ sma_5 > sma_20 then { s1 with up := s1.up + 20 }
        else if close < sma_5 ∧ sma_5 < sma_20 then { s1 with down := s1.down + 20 }
        else { s1 with side := s1.side + 20 }
      | none => s1
    | _, _ => s1
  let s3 : Scores :=
    if 3 ≤ frame.closes.length then
      let avg := Flt.fmean ((pct_changes frame.closes).drop (frame.closes.length - 3))
      if avg.gtq (1/200) then { s2 with up := s2.up + 15 }
      else if avg.ltq (-(1/200)) then { s2 with down := s2.down + 15 }
      else { s2 with side := s2.side + 15 }
    else s2
  let s4 : Scores :=
    match latest "RSI_14" with
    | some rsi =>
      if rsi < 40 then { s3 with up := s3.up + 10 }
      else if rsi > 60 then { s3 with down := s3.down + 10 }
      else { s3 with side := s3.side + 10 }
    | none => s3
  let s5 : Scores :=
    match latest "KDJ_K", latest "KDJ_D" with
    | some kdj_k, some _ =>
      if kdj_k < 20 then { s4 with up := s4.up + 5 }
      else if kdj_k > 80 then { s4 with down := s4.down + 5 }
      else { s4 with side := s4.side + 5 }
    | _, _ => s4
  let total := s5.up + s5.down + s5.side
  if total > 0 then
    { up := round1 (s5.up / total * 100), down := round1 (s5.down / total * 100),
      sideways := round1 (s5.side / total * 100) }
  else
    -- unreachable: side starts at 10 and never decreases
    { up := round1 (333/1000 * 100), down := round1 (333/1000 * 100),
      sideways := round1 (333/1000 * 100) }

/-- One per-horizon prediction dict.  The `except` default (raised by the
float conversion of a missing close) has no numeric keys, modelled by `none`
fields. -/
structure Pred where
  high : Option ℚ
  low : Option ℚ
  target : Option ℚ
  trend : String
  confidence : String
  confidence_score : Option ℚ
  volatility : Option ℚ
deriving DecidableEq, Repr

/-- `PricePredictor._predict_single_day`.  `sqrtFn` abstracts `np.sqrt` and
`volFn` the 20-bar return standard deviation (annualized by √252 and
de-annualized again, which divides out): both produce machine floats no
verified property depends on, so every theorem quantifies over them.
`int()` on the nonnegative probabilities is the floor. -/
def predict_single_day (sqrtFn : ℕ → ℚ) (volFn : DataFrame → ℚ) (frame : DataFrame)
    (latest : Row) (day : ℕ) (sr : SRResult) (tp : TrendProb) : Pred :=
  match latest "close" with
  | none =>
    { high := none, low := none, target := none, trend := "横盘",
      confidence := "low", confidence_score := none, volatility := none }
  | some current_price =>
    let daily_volatility := if 20 ≤ frame.closes.length then volFn frame else 1/50
    let up_prob := tp.up / 100
    let down_prob := tp.down / 100
    let sideways_prob := tp.sideways / 100
    let expected_change := (up_prob - down_prob) * daily_volatility * (day : ℚ)
    let target_price := current_price * (1 + expected_change)
    let high_price0 := target_price * (1 + (3/2) * daily_volatility * sqrtFn day)
    let low_price0 := target_price * (1 - (3/2) * daily_volatility * sqrtFn day)
    let high_price :=
      match sr.resistance.head? with
      | some r0 => if high_price0 > r0 then min high_price0 (r0 * (101/100)) else high_price0
      | none => high_price0
    let low_price :=
      match sr.support.getLast? with
      | some s0 => if low_price0 < s0 then max low_price0 (s0 * (99/100)) else low_price0
      | none => low_price0
    let trend := if up_prob > 50 then "上涨" else if down_prob > 50 then "下跌" else "横盘"
    let confidence_score : ℤ :=
      if trend = "上涨" then ⌊up_prob⌋
      else if trend = "下跌" then ⌊down_prob⌋
      else ⌊sideways_prob⌋
    let confidence :=
      if confidence_score ≥ 60 then "high"
      else if confidence_score ≥ 45 then "medium"
      else "low"
    { high := some (round2 high_price), low := some (round2 low_price),
      target := some (round2 target_price), trend := trend, confidence := confidence,
      confidence_score := some (confidence_score : ℚ),
      volatility := some (round2 (daily_volatility * 100)) }

/-- The bundle `predict_price` returns; `predictions` maps each horizon (in
days) to its prediction dict. -/
structure Prediction where
  predictions : List (ℕ × Pred)
  support_resistance : SRResult
  trend_probability : TrendProb
  current_price : Option ℚ
deriving DecidableEq, Repr

/-- `PricePredictor._empty_prediction`. -/
def empty_prediction : Prediction :=
  { predictions := []
    support_resistance := { support := [], resistance := [], atr := none }
    trend_probability := { up := 33, down := 33, sideways := 34 }
    current_price := none }

/-- `PricePredictor.predict_price`. -/
def predict_price (sqrtFn : ℕ → ℚ) (volFn : DataFrame → ℚ) (frame : DataFrame)
    (latest : Row) (signal_data : Option ℚ) : Prediction :=
  match latest "close" with
  | none => empty_prediction
  | some current_price =>
    if current_price ≤ 0 then empty_prediction
    else
      let sr := calc_support_resistance frame current_price
      let tp := predict_trend_probability frame latest signal_data
      { predictions := [1, 2, 3].map fun day =>
          (day, predict_single_day sqrtFn volFn frame latest day sr tp)
        support_resistance := sr
        trend_probability := tp
        current_price := some current_price }

/-- **C5 (amended).** `predict_price` returns the well-formed empty/neutral
bundle exactly when the latest close is null or non-positive; a valid close
over a history of fewer than 20 rows yields empty support and resistance lists
(and no ATR), but the trend probability is still computed and the three
per-horizon predictions (1d, 2d, 3d) are still produced — with a default 2%
daily volatility — contrary to the claim's empty/neutral bundle.  No exception
is raised in either case.  The statement holds for every sqrt/volatility
implementation. -/
theorem predict_price_guards (sqrtFn : ℕ → ℚ) (volFn : DataFrame → ℚ)
    (frame : DataFrame) (latest : Row) (signal_data : Option ℚ) :
    ((latest "close" = none ∨ ∃ c, latest "close" = some c ∧ c ≤ 0) →
      predict_price sqrtFn volFn frame latest signal_data = empty_prediction) ∧
    (∀ c, latest "close" = some c → 0 < c → frame.closes.length < 20 →
      (predict_price sqrtFn volFn frame latest signal_data).support_resistance
          = { support := [], resistance := [], atr := none } ∧
      (predict_price sqrtFn volFn frame latest signal_data).predictions.map Prod.fst
          = [1, 2, 3] ∧
      (predict_price sqrtFn volFn frame latest signal_data).current_price = some c) := by
  constructor
  · rintro (h | ⟨c, hc, hle⟩)
    · unfold predict_price
      rw [h]
    · unfold predict_price
      rw [hc]
      simp [if_pos hle]
  · intro c hc hpos hshort
    have hnle : ¬ c ≤ 0 := not_le.mpr hpos
    unfold predict_price
    rw [hc]
    simp only [if_neg hnle]
    refine ⟨?_, ?_, ?_⟩
    · unfold calc_support_resistance
      rw [if_pos hshort]
    · simp
    · trivial

/-- Frame for the C5 counterexample and witness: 10 flat bars. -/
def c5_frame : DataFrame :=
  { closes := List.replicate 10 100, highs := none, lows := none,
    latestInd := fun _ => none }

/-- Latest row for the C5 counterexample: a valid close only. -/
def c5_latest : Row := fun s => if s = "close" then some 100 else none

/-- Latest row for the C5 witness's invalid-close side. -/
def c5_bad : Row := fun s => if s = "close" then some (-5) else none

/-- A concrete sqrt stand-in for closed evaluations (its value is irrelevant
to every verified property). -/
def sqrt_one : ℕ → ℚ := fun _ => 1

/-- A concrete volatility stand-in for closed evaluations. -/
def vol_zero : DataFrame → ℚ := fun _ => 0

theorem c5_pct_drop :
    (pct_changes c5_frame.closes).drop (c5_frame.closes.length - 3)
      = [Flt.val 0, Flt.val 0, Flt.val 0] := by
  have hv : ∀ j : ℕ, 1 ≤ j → j < 10 →
      (pct_changes c5_frame.closes).get? j = some (Flt.val 0) := by
    intro j h1 h10
    unfold pct_changes c5_frame
    rw [List.get?_map, List.get?_range (by simpa using h10)]
    simp only [Option.map_some']
    rw [if_neg (by omega)]
    have hj : (List.replicate 10 (100:ℚ)).getD j 0 = 100 := by
      rw [List.getD_eq_getElem?_getD, List.getElem?_replicate, if_pos h10]
      rfl
    have hj1 : (List.replicate 10 (100:ℚ)).getD (j - 1) 0 = 100 := by
      rw [List.getD_eq_getElem?_getD, List.getElem?_replicate,
        if_pos (Nat.lt_of_le_of_lt (Nat.sub_le j 1) h10)]
      rfl
    rw [hj, hj1]
    norm_num [Flt.fdiv]
  have hlen : (pct_changes c5_frame.closes).length = 10 := by
    simp [pct_changes, c5_frame]
  have h7 : c5_frame.closes.length - 3 = 7 := by simp [c5_frame]
  rw [h7]
  apply List.ext_get?
  intro j
  rcases Nat.lt_or_ge j 3 with hj | hj
  · rw [List.get?_drop]
    interval_cases j
    · simpa using hv 7 (by norm_num) (by norm_num)
    · simpa using hv 8 (by norm_num) (by norm_num)
    · simpa using hv 9 (by norm_num) (by norm_num)
  · have hd : ((pct_changes c5_frame.closes).drop 7).length = 3 := by
      rw [List.length_drop, hlen]
    rw [List.get?_eq_none.mpr (by rw [hd]; exact hj),
      List.get?_eq_none.mpr (by simpa using hj)]

theorem c5_trend_probability :
    predict_trend_probability c5_frame c5_latest none
      = { up := 0, down := 0, sideways := 100 } := by
  have hmean : Flt.fmean ((pct_changes c5_frame.closes).drop
      (c5_frame.closes.length - 3)) = Flt.val 0 := by
    rw [c5_pct_drop]
    norm_num +decide [Flt.fmean]
  unfold predict_trend_probability
  rw [hmean]
  norm_num +decide [c5_latest, c5_frame, Flt.gtq, Flt.ltq, round1, roundHalfEven]

/-- **C5 counterexample.** On a valid close over a 10-bar flat history the
bundle is not the empty/neutral one the claim requires: the trend probability
is {up 0, down 0, sideways 100} rather than {33, 33, 34}, and the three
per-horizon predictions are produced. -/
theorem predict_price_short_history_cex :
    (predict_price sqrt_one vol_zero c5_frame c5_latest none).trend_probability
        = { up := 0, down := 0, sideways := 100 } ∧
    ({ up := 0, down := 0, sideways := 100 } : TrendProb)
        ≠ { up := 33, down := 33, sideways := 34 } ∧
    (predict_price sqrt_one vol_zero c5_frame c5_latest none).predictions.map Prod.fst
        = [1, 2, 3] := by
  have hproj : (predict_price sqrt_one vol_zero c5_frame c5_latest none).trend_probability
      = predict_trend_probability c5_frame c5_latest none := by
    unfold predict_price
    norm_num [c5_latest]
  have hmap : (predict_price sqrt_one vol_zero c5_frame c5_latest none).predictions.map
      Prod.fst = [1, 2, 3] := by
    unfold predict_price
    norm_num [c5_latest]
  refine ⟨?_, ?_, hmap⟩
  · rw [hproj, c5_trend_probability]
  · intro hcontra
    have := congrArg TrendProb.up hcontra
    norm_num at this

/-- Witness for C5: the invalid-close clause at a negative close, and the
short-history clause at the 10-bar frame. -/
theorem predict_price_guards_witness :
    ((c5_bad "close" = none ∨ ∃ c, c5_bad "close" = some c ∧ c ≤ 0) ∧
      predict_price sqrt_one vol_zero c5_frame c5_bad none = empty_prediction) ∧
    (c5_latest "close" = some 100 ∧ (0 : ℚ) < 100 ∧ c5_frame.closes.length < 20 ∧
      ((predict_price sqrt_one vol_zero c5_frame c5_latest none).support_resistance
          = { support := [], resistance := [], atr := none } ∧
        (predict_price sqrt_one vol_zero c5_frame c5_latest none).predictions.map
            Prod.fst = [1, 2, 3] ∧
        (predict_price sqrt_one vol_zero c5_frame c5_latest none).current_price
            = some 100)) :=
  ⟨⟨Or.inr ⟨-5, rfl, by norm_num⟩,
    (predict_price_guards sqrt_one vol_zero c5_frame c5_bad none).1
      (Or.inr ⟨-5, rfl, by norm_num⟩)⟩,
   rfl, by norm_num, by decide,
   (predict_price_guards sqrt_one vol_zero c5_frame c5_latest none).2 100 rfl
     (by norm_num) (by decide)⟩

end Predictor

end EtfCore
